import Mathlib

/-!
Verification development for the fantasy item catalog generator
(`generate_items.py`).  The Python module is shallowly embedded: the
process-wide random stream (`random.seed` / `random.random` /
`random.randint` / `random.choice` / `random.choices` / `random.uniform`)
is modelled as a stream of rationals together with a cursor, and the
module-level `_used_names` set is carried in the same explicit state.
Every function below is a direct transcription of the Python function of
the same name; randomness-consuming calls are threaded in exactly the
evaluation order of the Python source (Python evaluates all values of a
dict display, all arguments of an f-string, and the entries of an
`OrderedDict([...])` literal left to right).
-/

namespace Gen

/-- The apostrophe character (used by `to_id`, which strips `'`). -/
def apos : Char := Char.ofNat 39

/-- The underscore character. -/
def uscore : Char := Char.ofNat 95

/-- Lowercase ASCII letter or digit: the character class `[a-z0-9]` of the
slug regexes in `to_id`. -/
def isAlnumLower (c : Char) : Bool :=
  decide ((97 ≤ c.toNat ∧ c.toNat ≤ 122) ∨ (48 ≤ c.toNat ∧ c.toNat ≤ 57))

/-- Python `str.lower()` restricted to the ASCII names this module builds. -/
def pyLower (s : String) : String := ⟨s.data.map Char.toLower⟩

/-- Drop leading whitespace characters. -/
def dropWS : List Char → List Char
  | [] => []
  | c :: rest => if c.isWhitespace then dropWS rest else c :: rest

/-- Python `str.strip()`: whitespace removed from both ends. -/
def pyStrip (s : String) : String := ⟨(dropWS ((dropWS s.data).reverse)).reverse⟩

/-- `re.sub(r"[^a-z0-9]+", "_", s)`: every maximal run of characters outside
`[a-z0-9]` becomes a single underscore. -/
def replaceRuns : List Char → List Char
  | [] => []
  | c :: rest =>
    let r := replaceRuns rest
    if isAlnumLower c then c :: r
    else
      match r with
      | [] => [uscore]
      | d :: tl => if d = uscore then d :: tl else uscore :: d :: tl

/-- `re.sub(r"_+", "_", s)`: runs of underscores collapsed to one. -/
def squeezeU : List Char → List Char
  | [] => []
  | c :: rest =>
    let r := squeezeU rest
    if c = uscore then
      match r with
      | [] => [uscore]
      | d :: tl => if d = uscore then d :: tl else uscore :: d :: tl
    else c :: r

/-- Drop leading underscores. -/
def dropU : List Char → List Char
  | [] => []
  | c :: rest => if c = uscore then dropU rest else c :: rest

/-- Python `str.strip("_")`: underscores removed from both ends. -/
def stripU (l : List Char) : List Char := (dropU ((dropU l).reverse)).reverse

/-- `to_id` from the source: strip, lowercase, remove apostrophes, collapse
non-alphanumeric runs to single underscores, collapse underscore runs and
strip outer underscores. -/
def to_id (name : String) : String :=
  let s1 := (pyLower (pyStrip name)).data.filter (fun c => c ≠ apos)
  ⟨stripU (squeezeU (replaceRuns s1))⟩

/-- Python's `needle in hay` prefix test on character lists. -/
def isPre : List Char → List Char → Bool
  | [], _ => true
  | _ :: _, [] => false
  | a :: as, b :: bs => a = b && isPre as bs

/-- Python's substring containment `sub in hay` on character lists. -/
def hasSub (sub : List Char) : List Char → Bool
  | [] => isPre sub []
  | b :: bs => isPre sub (b :: bs) || hasSub sub bs

/-- Python's `sub in hay` on strings. -/
def strIn (sub hay : String) : Bool := hasSub sub.data hay.data

/-- Python `int(...)` on a rational: truncation toward zero. -/
def pyTrunc (x : ℚ) : Int := if 0 ≤ x then ⌊x⌋ else -⌊-x⌋

/-- Python 3 `round(...)` to an integer: round half to even. -/
def pyRound (x : ℚ) : Int :=
  let f := ⌊x⌋
  let frac := x - f
  if frac < 1/2 then f
  else if 1/2 < frac then f + 1
  else if f % 2 = 0 then f else f + 1

/-- Python `round(x, 2)` as used for `rate_per_hour` / `drop_rate`. -/
def round2 (x : ℚ) : ℚ := (pyRound (x * 100) : ℚ) / 100

-- =============================================================================
-- Configuration tables (verbatim from the source)
-- =============================================================================

def RNG_SEED : Int := 424242
def DEFAULT_OUTPUT_PATH : String := "assets/data/items.json"
def DEFAULT_PER_CATEGORY : Nat := 200

def RARITY_ORDER : List String := ["common", "uncommon", "rare", "epic", "legendary"]

def RARITY_MULT : List (String × ℚ) :=
  [("common", 1), ("uncommon", 3/2), ("rare", 5/2), ("epic", 4), ("legendary", 13/2)]

def RARITY_COLORS : List (String × String) :=
  [("common", "#FFFFFF"), ("uncommon", "#00FF00"), ("rare", "#0080FF"),
   ("epic", "#8000FF"), ("legendary", "#FF8000")]

/-- `RARITY_MULT[r]` (total lookup, call sites only use the five tiers). -/
def multQ (r : String) : ℚ := ((RARITY_MULT.lookup r).getD 0)

def SHOPS_ALL : List String :=
  ["blacksmith", "general_store", "magic_shop", "alchemist", "rare_goods",
   "hunters_guild", "dungeon_merchant"]

def shops_for (category : String) (rarity : String) : List String :=
  if category = "weapon" then
    if rarity = "common" ∨ rarity = "uncommon" then ["blacksmith", "general_store"]
    else ["blacksmith", "rare_goods"]
  else if category = "armor" then
    if rarity = "common" ∨ rarity = "uncommon" then ["general_store", "blacksmith"]
    else ["blacksmith", "rare_goods"]
  else if category = "accessory" then
    if rarity = "common" ∨ rarity = "uncommon" then ["general_store", "magic_shop"]
    else ["magic_shop", "rare_goods"]
  else if category = "consumable" then
    if rarity = "common" ∨ rarity = "uncommon" then ["general_store", "alchemist"]
    else ["alchemist", "rare_goods"]
  else ["general_store"]

def PFX_COMMON : List String :=
  ["Iron", "Steel", "Shadow", "Storm", "Ember", "Frost", "Moon", "Sun", "Dragon",
   "Raven", "Phoenix", "Crystal", "Obsidian", "Silver", "Golden", "Void", "Arcane",
   "Whisper", "Glacier", "Oak", "Sunsteel"]

def SUFFIX_FLAVOR : List String :=
  [" of Dawn", " of Dusk", " of Whispers", " of the Phoenix", " of the Glacier",
   " of Storms", " of Shadows", " of Radiance", " of Embers", " of Frost",
   " of the Dragon", " of the Raven", " of Clarity", " of Might", " of Swiftness",
   " of Focus", " of the Tide", " of Sparks"]

def WEAPON_NAME_CORES : List (String × String) :=
  [("Sword", "sword"), ("Blade", "sword"), ("Saber", "sword"), ("Cutlass", "sword"),
   ("Claymore", "sword"),
   ("Axe", "axe"), ("Waraxe", "axe"),
   ("Mace", "mace"), ("Hammer", "mace"), ("Maul", "mace"),
   ("Dagger", "dagger"), ("Dirk", "dagger"),
   ("Spear", "spear"),
   ("Halberd", "polearm"), ("Glaive", "polearm"),
   ("Lance", "lance"),
   ("Bow", "bow"), ("Crossbow", "crossbow"),
   ("Staff", "staff"),
   ("Scythe", "scythe")]

def TYPE_TO_WEAPON_TOKENS : List (String × List String) :=
  [("sword", ["sword", "blade", "saber", "cutlass", "claymore"]),
   ("axe", ["axe", "waraxe"]),
   ("mace", ["mace", "hammer", "maul"]),
   ("dagger", ["dagger", "dirk"]),
   ("spear", ["spear"]),
   ("lance", ["lance"]),
   ("polearm", ["halberd", "glaive"]),
   ("bow", ["bow"]),
   ("crossbow", ["crossbow"]),
   ("staff", ["staff"]),
   ("scythe", ["scythe"])]

/-- The flattened weapon-token vocabulary.  The source sorts a set of these
tokens; only membership is ever used, so the sort/dedup step is immaterial. -/
def WEAPON_TOKENS_FLAT : List String :=
  (TYPE_TO_WEAPON_TOKENS.map Prod.snd).foldr (· ++ ·) []

/-- `TYPE_TO_WEAPON_TOKENS.get(t, [])`. -/
def tokensOfW (t : String) : List String := (TYPE_TO_WEAPON_TOKENS.lookup t).getD []

def ARMOR_CORES : List String :=
  ["Armor", "Mail", "Plate Armor", "Scale Armor", "Brigandine",
   "Leather Armor", "Chainmail Armor", "Dragonscale Armor", "Battle Armor", "War Armor"]

def ARMOR_TOKENS : List String :=
  ["armor", "mail", "brigandine", "dragonscale", "war armor", "plate armor",
   "scale armor", "chainmail"]

def ACCESSORY_NAME_CORES : List (String × String) :=
  [("Ring", "ring"), ("Amulet", "amulet"), ("Charm", "charm"), ("Band", "band"),
   ("Brooch", "brooch"), ("Talisman", "talisman"), ("Circlet", "circlet"),
   ("Pendant", "pendant"), ("Bracelet", "bracelet"), ("Anklet", "anklet"),
   ("Sash", "sash")]

def CONSUMABLE_TEMPLATES : List (String × String) :=
  [("Health Potion", "heal"),
   ("Greater Health Potion", "heal"),
   ("Mana Potion", "mana_restore"),
   ("Elixir of Strength", "stat_boost"),
   ("Elixir of Dexterity", "stat_boost"),
   ("Elixir of Constitution", "stat_boost"),
   ("Elixir of Intelligence", "stat_boost"),
   ("Elixir of Wisdom", "stat_boost"),
   ("Elixir of Charisma", "stat_boost"),
   ("Potion of Swiftness", "speed_boost")]

/-- The consumable-name keyword list of the assertion in `consumable_item`. -/
def CONSUMABLE_KEYWORDS : List String := ["potion", "elixir", "draught", "scroll", "tonic"]

def MATERIAL_TYPES : List String :=
  ["metal", "wood", "gem", "stone", "cloth", "herb", "essence", "bone", "leather"]

def MATERIAL_CORES : List String :=
  ["Ingot", "Bar", "Ore", "Shard", "Crystal", "Gem", "Thread", "Fiber", "Silk",
   "Heartwood", "Wood", "Plank", "Pelt", "Leather", "Feather", "Bone", "Scale",
   "Powder", "Resin", "Herb", "Blossom", "Root", "Seed", "Essence", "Core"]

/-- The material-token list of the assertion in `material_item`. -/
def MATERIAL_ASSERT_TOKENS : List String :=
  ["ingot", "bar", "ore", "shard", "crystal", "gem", "thread", "fiber", "silk",
   "heartwood", "wood", "plank", "pelt", "leather", "feather", "bone", "scale",
   "powder", "resin", "herb", "blossom", "root", "seed", "essence", "core"]

def CRAFT_POOL : List String :=
  ["iron_ingot", "steel_ingot", "leather_strip", "oak_wood", "obsidian_shard",
   "ember_crystal", "arcane_thread", "moonshade_fabric", "vitality_herb", "frost_core",
   "storm_essence", "sunsteel_ingot", "drakescale", "pure_water", "healing_herb",
   "luminescent_moss", "crystal_shard", "runed_stone", "ghost_essence", "phoenix_feather"]

def SPECIAL_EFFECT_POOL : List String :=
  ["bleed_on_hit", "burn_on_hit", "freeze_on_hit", "shock_on_hit",
   "mana_leech", "life_leech", "backstab_bonus", "parry_window",
   "elemental_affinity:fire", "elemental_affinity:ice", "elemental_affinity:lightning",
   "clarity:spell_focus", "frost_aura", "fear_aura", "thorns", "regen_over_time",
   "dash_cooldown_reduction", "crit_chain", "lightning_chain"]

def ELEMENTS : List String := ["fire", "ice", "lightning", "poison"]

-- =============================================================================
-- The random source and shared mutable state
-- =============================================================================

/-- The process state of the Python module while generating: the seeded
random stream with its cursor, and the module-level `_used_names` set
(modelled as the list of inserted names; only membership and insertion are
ever performed on it).  `fresh` is a ghost flag used solely to state the
"no name-collision budget was ever exhausted" hypothesis: it is and-ed with
the freshness of each name `unique_name` commits, and is observed by no
generated value. -/
structure RS where
  stream : Nat → ℚ
  idx : Nat
  used : List String
  fresh : Bool

/-- One draw of `random.random()`. -/
def rand (s : RS) : ℚ × RS :=
  (s.stream s.idx, { s with idx := s.idx + 1 })

/-- `random.randint(a, b)`: one draw mapped into `[a, b]` (for `a ≤ b`). -/
def randint (a b : Nat) (s : RS) : Nat × RS :=
  let qs := rand s
  let k := b + 1 - a
  (a + (Int.toNat ⌊qs.1 * (k : ℚ)⌋) % k, qs.2)

/-- `random.choice(l)`: one draw mapped to an index of `l` (nonempty at
every call site; `d` is a fallback that is never reached there). -/
def choice {α : Type} (l : List α) (d : α) (s : RS) : α × RS :=
  let qs := rand s
  (l.getD ((Int.toNat ⌊qs.1 * (l.length : ℚ)⌋) % l.length) d, qs.2)

/-- `random.uniform(a, b)`. -/
def rand_uniform (a b : ℚ) (s : RS) : ℚ × RS :=
  let qs := rand s
  (a + (b - a) * qs.1, qs.2)

-- =============================================================================
-- Helpers (pure functions of the state)
-- =============================================================================

/-- The collision loop of `unique_name`: while the candidate is used and
fewer than 20 tries were made, redraw `f"{base} {randint(0, 999)}"`.  The
loop can exit with a still-colliding candidate once the budget is spent. -/
def uniqueLoop (base : String) : Nat → String → RS → String × RS
  | 0, n, s => (n, s)
  | fuel + 1, n, s =>
    if s.used.elem n then
      let ks := randint 0 999 s
      uniqueLoop base fuel (base ++ " " ++ toString ks.1) ks.2
    else (n, s)

/-- The flavor-suffix step of `unique_name`: the draw happens only when both
flags are set (Python's `and` short-circuits). -/
def flavored (base : String) (allow_suffix allow_flavor : Bool) (s : RS) : String × RS :=
  if allow_flavor && allow_suffix then
    let qs := rand s
    if qs.1 < 1/2 then
      let sufs := choice SUFFIX_FLAVOR " of Dawn" qs.2
      (base ++ sufs.1, sufs.2)
    else (base, qs.2)
  else (base, s)

/-- `unique_name` from the source: optional flavor suffix, then the
collision loop (at most 20 times), then the committed name is added to
`_used_names`. -/
def unique_name (base : String) (allow_suffix allow_flavor : Bool) (s : RS) : String × RS :=
  let ns := flavored base allow_suffix allow_flavor s
  let ls := uniqueLoop base 20 ns.1 ns.2
  (ls.1, { ls.2 with used := (ls.1 :: ls.2.used),
                     fresh := ls.2.fresh && !(ls.2.used.elem ls.1) })

def img_path (category : String) (iid : String) : String :=
  "res://assets/textures/" ++ category ++ "/" ++ iid ++ ".png"

/-- `pick_rarity`: one `random.random()` draw against the cumulative
thresholds 0.45 / 0.75 / 0.92 / 0.985. -/
def pick_rarity (s : RS) : String × RS :=
  let qs := rand s
  (if qs.1 < 45/100 then "common"
   else if qs.1 < 75/100 then "uncommon"
   else if qs.1 < 92/100 then "rare"
   else if qs.1 < 985/1000 then "epic"
   else "legendary", qs.2)

/-- `level_for_rarity`: the Python dict display evaluates all five
`randint` calls before indexing, so five draws are consumed. -/
def level_for_rarity (r : String) (s : RS) : Nat × RS :=
  let c := randint 1 4 s
  let u := randint 5 8 c.2
  let ra := randint 9 12 u.2
  let e := randint 13 17 ra.2
  let l := randint 18 20 e.2
  (if r = "common" then c.1 else if r = "uncommon" then u.1
   else if r = "rare" then ra.1 else if r = "epic" then e.1 else l.1, l.2)

def stat_bonus (r : String) : Int := pyRound (multQ r)

def maybe_bonus (r : String) (s : RS) : Int × RS :=
  let qs := rand s
  (if qs.1 < 1/2 then stat_bonus r else 0, qs.2)

/-- `crit_chance`: a dict display again, so five draws. -/
def crit_chance (r : String) (s : RS) : Nat × RS :=
  let c := randint 3 4 s
  let u := randint 5 7 c.2
  let ra := randint 8 10 u.2
  let e := randint 10 12 ra.2
  let l := randint 12 15 e.2
  (if r = "common" then c.1 else if r = "uncommon" then u.1
   else if r = "rare" then ra.1 else if r = "epic" then e.1 else l.1, l.2)

def crit_damage (r : String) : Int := 120 + pyRound (10 * multQ r)

/-- The body of the `for _ in range(count)` loop in `maybe_effects`. -/
def effLoop (r : String) : Nat → RS → List String × RS
  | 0, s => ([], s)
  | k + 1, s =>
    let es := choice SPECIAL_EFFECT_POOL "thorns" s
    let e := es.1
    let step : String × RS :=
      if e.startsWith "elemental_affinity" then
        (e ++ ":" ++ toString (5 + pyTrunc (5 * multQ r)) ++ "%", es.2)
      else if e = "bleed_on_hit" ∨ e = "burn_on_hit" ∨ e = "freeze_on_hit" ∨ e = "shock_on_hit" then
        let ds := randint 3 6 es.2
        (e ++ ":" ++ toString (10 + pyTrunc (5 * multQ r)) ++ "%:" ++ toString ds.1 ++ "s", ds.2)
      else if e = "clarity:spell_focus" then
        ("clarity:spell_focus:" ++ toString (5 + pyTrunc (5 * multQ r)) ++ "%", es.2)
      else (e, es.2)
    let rest := effLoop r k step.2
    (step.1 :: rest.1, rest.2)

def maybe_effects (r : String) (s : RS) : List String × RS :=
  let qs := rand s
  if qs.1 < 33/100 ∨ (r = "rare" ∨ r = "epic" ∨ r = "legendary") then
    effLoop r (1 + (if r = "epic" ∨ r = "legendary" then 1 else 0)) qs.2
  else ([], qs.2)

/-- The deterministic interpolation part of `gold_value`. -/
def goldBase (r : String) (min_v max_v : Nat) : ℚ :=
  (min_v : ℚ) + ((max_v : ℚ) - (min_v : ℚ)) *
    ((RARITY_ORDER.indexOf r : ℚ) / ((RARITY_ORDER.length : ℚ) - 1))

def gold_value (r : String) (min_v max_v : Nat) (s : RS) : Int × RS :=
  let js := randint 0 min_v s
  (pyTrunc (goldBase r min_v max_v + (js.1 : ℚ)), js.2)

/-- Python dict assignment `mats[k] = v`: overwrite in place, else append. -/
def upsert (k : String) (v : Nat) : List (String × Nat) → List (String × Nat)
  | [] => [(k, v)]
  | p :: rest => if p.1 = k then (k, v) :: rest else p :: upsert k v rest

/-- The body of the sampling loop in `craft_mats`; the `pure_water` resample
draw happens only in liquid mode on a non-water pick (Python's `and`). -/
def craftLoop (r : String) (liquid : Bool) :
    Nat → List (String × Nat) → RS → List (String × Nat) × RS
  | 0, acc, s => (acc, s)
  | k + 1, acc, s =>
    let ms := choice CRAFT_POOL "iron_ingot" s
    let step : String × RS :=
      if liquid ∧ ms.1 ≠ "pure_water" then
        let qs := rand ms.2
        (if qs.1 < 33/100 then "pure_water" else ms.1, qs.2)
      else (ms.1, ms.2)
    craftLoop r liquid k
      (upsert (to_id step.1) (1 + RARITY_ORDER.indexOf r / 2) acc) step.2

def craft_mats (r : String) (min_n max_n : Nat) (liquid : Bool) (s : RS) :
    List (String × Nat) × RS :=
  let cs := randint min_n max_n s
  craftLoop r liquid cs.1 [] cs.2

def elem_res (r : String) (s : RS) : Nat × RS :=
  if r = "common" then (0, s)
  else if r = "uncommon" then choice [0, 5] 0 s
  else if r = "rare" then choice [5, 10, 15] 5 s
  else if r = "epic" then choice [10, 15, 20] 10 s
  else choice [15, 20, 25] 15 s

def consumable_desc (kind : String) (r : String) : String :=
  if kind = "heal" then
    if r = "common" then "Restores a modest amount of health instantly."
    else if r = "uncommon" then "A potent brew that restores more health."
    else if r = "rare" then "A strong restorative for grievous wounds."
    else if r = "epic" then "An elite draught favored by champions."
    else "A mythical concoction that mends any injury."
  else if kind = "mana_restore" then "Replenishes a portion of mana instantly."
  else if kind = "stat_boost" then "Temporarily enhances attributes."
  else "Increases movement speed for a short time."

/-- The `effect` object of a consumable (the OrderedDict of `build_effect`;
the fixed 8-key `stats_affected` block is kept as an ordered association
list exactly as constructed). -/
structure Effect where
  type : String
  value : Int
  duration : Int
  instant : Bool
  stats_affected : List (String × Int)
deriving Repr, DecidableEq

def baseStatsAffected : List (String × Int) :=
  [("health", 0), ("mana", 0), ("strength", 0), ("dexterity", 0),
   ("constitution", 0), ("intelligence", 0), ("wisdom", 0), ("charisma", 0)]

/-- `eff["stats_affected"][k] = v` on the fixed 8-key block. -/
def setStat (k : String) (v : Int) (l : List (String × Int)) : List (String × Int) :=
  l.map (fun p => if p.1 = k then (p.1, v) else p)

def CORE_ATTRS : List String :=
  ["strength", "dexterity", "constitution", "intelligence", "wisdom", "charisma"]

def build_effect (kind : String) (r : String) (s : RS) : Effect × RS :=
  if kind = "heal" then
    let v : Int := if r = "common" then 120 else if r = "uncommon" then 350
      else if r = "rare" then 600 else if r = "epic" then 900 else 1400
    ({ type := kind, value := v, duration := 0, instant := true,
       stats_affected := setStat "health" v baseStatsAffected }, s)
  else if kind = "mana_restore" then
    let v : Int := if r = "common" then 100 else if r = "uncommon" then 200
      else if r = "rare" then 350 else if r = "epic" then 500 else 750
    ({ type := kind, value := v, duration := 0, instant := true,
       stats_affected := setStat "mana" v baseStatsAffected }, s)
  else if kind = "stat_boost" then
    let dur : Int := if r = "uncommon" ∨ r = "common" then 300
      else if r = "rare" then 600 else if r = "epic" then 900 else 1200
    let amt : Int := if r = "common" then 1 else if r = "uncommon" then 2
      else if r = "rare" then 3 else if r = "epic" then 4 else 5
    let ws := choice CORE_ATTRS "strength" s
    ({ type := kind, value := 0, duration := dur, instant := false,
       stats_affected := setStat ws.1 amt baseStatsAffected }, ws.2)
  else if kind = "speed_boost" then
    ({ type := kind,
       value := if r = "common" then 15 else if r = "uncommon" then 20
         else if r = "rare" then 25 else if r = "epic" then 30 else 35,
       duration := if r = "common" ∨ r = "uncommon" then 180
         else if r = "rare" then 300 else 420,
       instant := false, stats_affected := baseStatsAffected }, s)
  else
    ({ type := kind, value := 0, duration := 0, instant := true,
       stats_affected := baseStatsAffected }, s)

-- =============================================================================
-- Item records (field-for-field transcriptions of the OrderedDicts;
-- the numeric `stats` blocks are ordered association lists, and armor's
-- nested `elemental_resistance` dict is carried in its own field)
-- =============================================================================

structure Crafting where
  recipe_id : String
  materials : List (String × Nat)
deriving Repr, DecidableEq

structure WItem where
  id : String
  name : String
  type : String
  weapon_type : String
  rarity : String
  level_requirement : Nat
  stats : List (String × Int)
  special_effects : List String
  value : Int
  durability : Nat
  crafting : Crafting
  shop_availability : List String
  image : String
deriving Repr, DecidableEq

structure AItem where
  id : String
  name : String
  type : String
  armor_type : String
  rarity : String
  level_requirement : Nat
  stats : List (String × Int)
  elemental_resistance : List (String × Nat)
  special_effects : List String
  value : Int
  durability : Nat
  crafting : Crafting
  shop_availability : List String
  image : String
deriving Repr, DecidableEq

structure XItem where
  id : String
  name : String
  type : String
  accessory_type : String
  rarity : String
  level_requirement : Nat
  stats : List (String × Int)
  special_effects : List String
  value : Int
  durability : Nat
  crafting : Crafting
  shop_availability : List String
  image : String
deriving Repr, DecidableEq

structure PItem where
  id : String
  name : String
  type : String
  consumable_type : String
  rarity : String
  effect : Effect
  stack_size : Nat
  value : Int
  crafting : Crafting
  shop_availability : List String
  description : String
  image : String
deriving Repr, DecidableEq

structure SourceRec where
  type : String
  source_id : String
  rate_per_hour : ℚ
  drop_rate : ℚ
deriving Repr, DecidableEq

structure MItem where
  id : String
  name : String
  type : String
  material_type : String
  rarity : String
  stack_size : Nat
  value : Int
  sources : List SourceRec
  description : String
  image : String
deriving Repr, DecidableEq

-- =============================================================================
-- Builders (category-specific)
-- =============================================================================

def name_weapon (s : RS) : (String × String) × RS :=
  let cs := choice WEAPON_NAME_CORES ("Sword", "sword") s
  let ps := choice PFX_COMMON "Iron" cs.2
  let ns := unique_name (ps.1 ++ " " ++ cs.1.1) true true ps.2
  ((ns.1, cs.1.2), ns.2)

def weapon_item (s : RS) : WItem × RS :=
  let rs := pick_rarity s
  let r := rs.1
  let ns := name_weapon rs.2
  let name := ns.1.1
  let iid := to_id name
  let ba := randint 10 20 ns.2
  let a2 := randint 0 3 ba.2
  let atk : Int := pyRound ((ba.1 : ℚ) * multQ r) + (a2.1 : Int)
  let lv := level_for_rarity r a2.2
  let cb := maybe_bonus r lv.2
  let cc := crit_chance r cb.2
  let effs := maybe_effects r cc.2
  let gv := gold_value r 100 900 effs.2
  let du := randint 70 180 gv.2
  let cm := craft_mats r 2 4 false du.2
  ({ id := iid, name := name, type := "weapon", weapon_type := ns.1.2, rarity := r,
     level_requirement := lv.1,
     stats := [("attack", atk), ("strength_bonus", stat_bonus r),
               ("dexterity_bonus", stat_bonus r), ("constitution_bonus", cb.1),
               ("intelligence_bonus", 0), ("wisdom_bonus", 0), ("charisma_bonus", 0),
               ("critical_chance", (cc.1 : Int)), ("critical_damage", crit_damage r)],
     special_effects := effs.1, value := gv.1, durability := du.1,
     crafting := { recipe_id := "rcp_" ++ iid, materials := cm.1 },
     shop_availability := shops_for "weapon" r,
     image := img_path "weapons" iid }, cm.2)

def name_armor (s : RS) : String × RS :=
  let ps := choice PFX_COMMON "Iron" s
  let cs := choice ARMOR_CORES "Armor" ps.2
  unique_name (ps.1 ++ " " ++ cs.1) true true cs.2

/-- The armor token check `any(tok in name.lower() for tok in ARMOR_TOKENS)`
used by the defensive retry loop and the final armor assertion. -/
def armorTokCheck (name : String) : Bool :=
  ARMOR_TOKENS.any (fun tok => strIn tok (pyLower name))

/-- The defensive retry loop of `armor_item` (at most 5 retries); the middle
component counts how many times the loop body executed. -/
def armorRetry : Nat → String → RS → String × Nat × RS
  | 0, name, s => (name, 0, s)
  | fuel + 1, name, s =>
    if armorTokCheck name then (name, 0, s)
    else
      let ns := name_armor s
      let rec2 := armorRetry fuel ns.1 ns.2
      (rec2.1, rec2.2.1 + 1, rec2.2.2)

def armor_item (s : RS) : AItem × RS :=
  let rs := pick_rarity s
  let r := rs.1
  let n0 := name_armor rs.2
  let ar := armorRetry 5 n0.1 n0.2
  let name := ar.1
  let iid := to_id name
  let bd := randint 12 20 ar.2.2
  let d2 := randint 0 3 bd.2
  let defense : Int := pyRound ((bd.1 : ℚ) * multQ r) + (d2.1 : Int)
  let e1 := elem_res r d2.2
  let e2 := elem_res r e1.2
  let e3 := elem_res r e2.2
  let e4 := elem_res r e3.2
  let lv := level_for_rarity r e4.2
  let sb := maybe_bonus r lv.2
  let db := maybe_bonus r sb.2
  let cb := maybe_bonus r db.2
  let effs := maybe_effects r cb.2
  let gv := gold_value r 120 1800 effs.2
  let du := randint 110 190 gv.2
  let cm := craft_mats r 3 5 false du.2
  ({ id := iid, name := name, type := "armor", armor_type := "suit", rarity := r,
     level_requirement := lv.1,
     stats := [("defense", defense), ("armor_class_bonus", min (pyTrunc (multQ r)) 3),
               ("strength_bonus", sb.1), ("dexterity_bonus", db.1),
               ("constitution_bonus", cb.1), ("intelligence_bonus", 0),
               ("wisdom_bonus", 0), ("charisma_bonus", 0)],
     elemental_resistance := [("fire", e1.1), ("ice", e2.1), ("lightning", e3.1),
                              ("poison", e4.1)],
     special_effects := effs.1, value := gv.1, durability := du.1,
     crafting := { recipe_id := "rcp_" ++ iid, materials := cm.1 },
     shop_availability := shops_for "armor" r,
     image := img_path "armor" iid }, cm.2)

def name_accessory (s : RS) : (String × String) × RS :=
  let cs := choice ACCESSORY_NAME_CORES ("Ring", "ring") s
  let ps := choice PFX_COMMON "Iron" cs.2
  let ns := unique_name (ps.1 ++ " " ++ cs.1.1) true true ps.2
  ((ns.1, cs.1.2), ns.2)

def accessory_item (s : RS) : XItem × RS :=
  let rs := pick_rarity s
  let r := rs.1
  let ns := name_accessory rs.2
  let name := ns.1.1
  let iid := to_id name
  let lv := level_for_rarity r ns.2
  let sb := maybe_bonus r lv.2
  let db := maybe_bonus r sb.2
  let cb := maybe_bonus r db.2
  let ib := maybe_bonus r cb.2
  let wb := maybe_bonus r ib.2
  let hb := maybe_bonus r wb.2
  let effs := maybe_effects r hb.2
  let gv := gold_value r 150 1800 effs.2
  let du := randint 40 120 gv.2
  let cm := craft_mats r 2 3 false du.2
  ({ id := iid, name := name, type := "accessory", accessory_type := ns.1.2, rarity := r,
     level_requirement := lv.1,
     stats := [("strength_bonus", sb.1), ("dexterity_bonus", db.1),
               ("constitution_bonus", cb.1), ("intelligence_bonus", ib.1),
               ("wisdom_bonus", wb.1), ("charisma_bonus", hb.1),
               ("mana_regeneration", pyRound (multQ r)),
               ("health_regeneration", max (pyRound (multQ r) - 1) 0),
               ("experience_bonus",
                if r = "rare" ∨ r = "epic" ∨ r = "legendary" then pyTrunc (5 * multQ r) else 0)],
     special_effects := effs.1, value := gv.1, durability := du.1,
     crafting := { recipe_id := "rcp_" ++ iid, materials := cm.1 },
     shop_availability := shops_for "accessory" r,
     image := img_path "accessories" iid }, cm.2)

def name_consumable (s : RS) : (String × String) × RS :=
  let cs := choice CONSUMABLE_TEMPLATES ("Health Potion", "heal") s
  let ns := unique_name cs.1.1 false false cs.2
  ((ns.1, cs.1.2), ns.2)

def consumable_item (s : RS) : PItem × RS :=
  let rs := pick_rarity s
  let r := rs.1
  let ns := name_consumable rs.2
  let name := ns.1.1
  let iid := to_id name
  let eff := build_effect ns.1.2 r ns.2
  let gv := gold_value r 20 400 eff.2
  let cm := craft_mats r 2 3 true gv.2
  ({ id := iid, name := name, type := "consumable", consumable_type := "potion",
     rarity := r, effect := eff.1,
     stack_size := if r = "common" ∨ r = "uncommon" then 99 else 10,
     value := gv.1,
     crafting := { recipe_id := "rcp_" ++ iid, materials := cm.1 },
     shop_availability := shops_for "consumable" r,
     description := consumable_desc ns.1.2 r,
     image := img_path "consumables" iid }, cm.2)

def name_material (s : RS) : String × RS :=
  let ps := choice PFX_COMMON "Iron" s
  let cs := choice MATERIAL_CORES "Ingot" ps.2
  unique_name (ps.1 ++ " " ++ cs.1) false false cs.2

/-- `random.choices(RARITY_ORDER, weights=[45,30,18,6,1])[0]`: one draw
against the cumulative weights 45 / 75 / 93 / 99 / 100. -/
def material_rarity_choice (s : RS) : String × RS :=
  let qs := rand s
  (if qs.1 * 100 < 45 then "common"
   else if qs.1 * 100 < 75 then "uncommon"
   else if qs.1 * 100 < 93 then "rare"
   else if qs.1 * 100 < 99 then "epic"
   else "legendary", qs.2)

def TERRITORY_POOL : List String :=
  ["verdant_lands_mines", "forest_logging_camps", "tannery", "crystal_cavern",
   "ashmire_deep", "ember_hollows"]

def DUNGEONS : List String := ["ember_hollows", "ashmire_deep", "moonlit_keep", "glacier_pass"]

def MATERIAL_DESCS : List String :=
  ["A bar of smelted stock, sturdy and ubiquitous.",
   "Highly sought for advanced recipes.",
   "Flickers with latent energy.",
   "Seasoned resource prized by artisans.",
   "Conductive material suited for runework."]

def material_item (s : RS) : MItem × RS :=
  let rs := material_rarity_choice s
  let r := rs.1
  let ns := name_material rs.2
  let name := ns.1
  let iid := to_id name
  let ms := choice MATERIAL_TYPES "metal" ns.2
  let t1 := choice TERRITORY_POOL "tannery" ms.2
  let u1 := rand_uniform (3/2) (9/2) t1.2
  let sh := choice ["blacksmith", "general_store", "alchemist", "rare_goods"] "blacksmith" u1.2
  let q3 := rand sh.2
  let srcs : List SourceRec × RS :=
    if q3.1 < 33/100 then
      let dg := choice DUNGEONS "ember_hollows" q3.2
      let u2 := rand_uniform 5 18 dg.2
      ([{ type := "territory_income", source_id := t1.1, rate_per_hour := round2 u1.1,
          drop_rate := 0 },
        { type := "shop", source_id := sh.1, rate_per_hour := 0, drop_rate := 0 },
        { type := "dungeon_drop", source_id := dg.1, rate_per_hour := 0,
          drop_rate := round2 u2.1 }], u2.2)
    else
      ([{ type := "territory_income", source_id := t1.1, rate_per_hour := round2 u1.1,
          drop_rate := 0 },
        { type := "shop", source_id := sh.1, rate_per_hour := 0, drop_rate := 0 }], q3.2)
  let gv := gold_value r 3 45 srcs.2
  let ds := choice MATERIAL_DESCS "Flickers with latent energy." gv.2
  ({ id := iid, name := name, type := "crafting_material", material_type := ms.1,
     rarity := r, stack_size := 999, value := gv.1, sources := srcs.1,
     description := ds.1, image := img_path "materials" iid }, ds.2)

-- =============================================================================
-- Orchestration
-- =============================================================================

structure Categories where
  weapons : List WItem
  armor : List AItem
  accessories : List XItem
  consumables : List PItem
  materials : List MItem
  rarity_multipliers : List (String × ℚ)
  rarity_colors : List (String × String)
deriving Repr, DecidableEq

structure Document where
  version : String
  categories : Categories
deriving Repr, DecidableEq

structure GenConfig where
  per_category : Nat := DEFAULT_PER_CATEGORY
  out_path : String := DEFAULT_OUTPUT_PATH
  seed : Int := RNG_SEED
deriving Repr, DecidableEq

/-- A file-system effect observable by the embedding. -/
inductive FSEffect where
  | makedirs (path : String)
  | writeFile (path : String)
deriving Repr, DecidableEq

/-- `os.path.dirname` for the forward-slash paths this module uses. -/
def dirname (p : String) : String :=
  String.intercalate "/" (p.splitOn "/").dropLast

/-- `[BUILDERS[cat]() for _ in range(cfg.per_category)]`. -/
def buildN {α : Type} (f : RS → α × RS) : Nat → RS → List α × RS
  | 0, s => ([], s)
  | n + 1, s =>
    let x := f s
    let rest := buildN f n x.2
    (x.1 :: rest.1, rest.2)

/-- `generate(cfg)`.  `seedStream` is the PRNG: the stream of draws that
`random.seed(cfg.seed)` determines.  The call re-seeds the stream (cursor
back to 0) but does NOT clear the module-level `_used_names` carried in
`used0`; it also performs the `os.makedirs` file-system effect, returned in
the effect trace.  The result is the document, the final process state and
the effect trace. -/
def generate (seedStream : Int → Nat → ℚ) (cfg : GenConfig) (used0 : List String) :
    Document × RS × List FSEffect :=
  let s0 : RS := { stream := seedStream cfg.seed, idx := 0, used := used0, fresh := true }
  let w := buildN weapon_item cfg.per_category s0
  let a := buildN armor_item cfg.per_category w.2
  let x := buildN accessory_item cfg.per_category a.2
  let c := buildN consumable_item cfg.per_category x.2
  let m := buildN material_item cfg.per_category c.2
  ({ version := "1.0",
     categories := { weapons := w.1, armor := a.1, accessories := x.1, consumables := c.1,
                     materials := m.1, rarity_multipliers := RARITY_MULT,
                     rarity_colors := RARITY_COLORS } },
   m.2, [FSEffect.makedirs (dirname cfg.out_path)])

/-- `write_json`: the only file write, outside `generate`. -/
def write_json (path : String) (_doc : Document) : List FSEffect :=
  [FSEffect.writeFile path]

-- =============================================================================
-- Observations used by the claims
-- =============================================================================

/-- All item ids of a document, across the five category lists. -/
def docIds (d : Document) : List String :=
  d.categories.weapons.map (fun it => it.id) ++
  d.categories.armor.map (fun it => it.id) ++
  d.categories.accessories.map (fun it => it.id) ++
  d.categories.consumables.map (fun it => it.id) ++
  d.categories.materials.map (fun it => it.id)

/-- All item names of a document, across the five category lists. -/
def docNames (d : Document) : List String :=
  d.categories.weapons.map (fun it => it.name) ++
  d.categories.armor.map (fun it => it.name) ++
  d.categories.accessories.map (fun it => it.name) ++
  d.categories.consumables.map (fun it => it.name) ++
  d.categories.materials.map (fun it => it.name)

/-- A constant, trivially valid random stream (every draw 0), used to
exhibit concrete runs. -/
def zeroStream : Int → Nat → ℚ := fun _ _ => 0

/-- A state whose first draw is 0.925, squarely between `pick_rarity`'s
0.92/0.985 epic band and the material weighted-choice 0.93 rare/epic cut. -/
def s925 : RS :=
  { stream := fun i => if i = 0 then 37/40 else 0, idx := 0, used := [], fresh := true }

/-- The `GenConfig` with `n` items per category and the default path/seed. -/
def cfgN (n : Nat) : GenConfig := { per_category := n }

/-- The non-zero-valued keys of an effect's `stats_affected` block. -/
def nonzeroKeys (e : Effect) : List String :=
  (e.stats_affected.filter (fun p => p.2 ≠ 0)).map Prod.fst

/-- The lower/upper ends of the `level_for_rarity` bands, by tier. -/
def bandLo (r : String) : Nat :=
  if r = "common" then 1 else if r = "uncommon" then 5
  else if r = "rare" then 9 else if r = "epic" then 13 else 18

def bandHi (r : String) : Nat :=
  if r = "common" then 4 else if r = "uncommon" then 8
  else if r = "rare" then 12 else if r = "epic" then 17 else 20

/-- The expectation of `gold_value(r, min_v, max_v)` over its uniform jitter
draw `randint(0, min_v)`. -/
def goldExpect (r : String) (min_v max_v : Nat) : ℚ :=
  (Finset.sum (Finset.range (min_v + 1))
    (fun k => ((pyTrunc (goldBase r min_v max_v + (k : ℚ))) : ℚ))) / ((min_v : ℚ) + 1)

/-- Well-formedness of a slug: only `[a-z0-9_]`, no doubled underscore, and
no leading or trailing underscore. -/
def slugOk (s : String) : Bool :=
  s.data.all (fun c => isAlnumLower c || c = uscore) &&
  decide (s.data.Chain' (fun a b => ¬(a = uscore ∧ b = uscore))) &&
  decide (s.data.head? ≠ some uscore) &&
  decide (s.data.getLast? ≠ some uscore)

end Gen

namespace Gen

/-- The invariant tying a list of already-emitted names to the process
state: the names are pairwise distinct and all recorded in `_used_names`. -/
def Inv (names : List String) (s : RS) : Prop :=
  names.Nodup ∧ ∀ x ∈ names, x ∈ s.used

-- =============================================================================
-- Lemmas: character classes
-- =============================================================================

theorem uscore_toNat : uscore.toNat = 95 := by decide

theorem alnum_toNat {c : Char} (h : isAlnumLower c = true) :
    (97 ≤ c.toNat ∧ c.toNat ≤ 122) ∨ (48 ≤ c.toNat ∧ c.toNat ≤ 57) := by
  simpa [isAlnumLower] using h

theorem slugChar_toNat {c : Char} (h : isAlnumLower c = true ∨ c = uscore) :
    (97 ≤ c.toNat ∧ c.toNat ≤ 122) ∨ (48 ≤ c.toNat ∧ c.toNat ≤ 57) ∨ c.toNat = 95 := by
  rcases h with h | h
  · rcases alnum_toNat h with h | h
    · exact Or.inl h
    · exact Or.inr (Or.inl h)
  · exact Or.inr (Or.inr (h ▸ uscore_toNat))

theorem slugChar_not_ws {c : Char} (h : isAlnumLower c = true ∨ c = uscore) :
    c.isWhitespace = false := by
  have hn := slugChar_toNat h
  simp only [Char.isWhitespace, Bool.or_eq_false_iff, decide_eq_false_iff_not]
  refine ⟨⟨⟨?_, ?_⟩, ?_⟩, ?_⟩ <;>
    · intro hc; subst hc; revert hn; decide

theorem slugChar_toLower {c : Char} (h : isAlnumLower c = true ∨ c = uscore) :
    c.toLower = c := by
  have hn := slugChar_toNat h
  unfold Char.toLower
  rw [if_neg]
  omega

theorem slugChar_not_apos {c : Char} (h : isAlnumLower c = true ∨ c = uscore) :
    c ≠ apos := by
  have hn := slugChar_toNat h
  intro hc; subst hc; revert hn; decide

theorem slugChar_not_uscore {c : Char} (h : isAlnumLower c = true) : c ≠ uscore := by
  have hn := alnum_toNat h
  intro hc; subst hc; revert hn; decide

-- =============================================================================
-- Lemmas: the slug pipeline of `to_id`
-- =============================================================================

theorem mem_replaceRuns : ∀ (l : List Char) (c : Char), c ∈ replaceRuns l →
    isAlnumLower c = true ∨ c = uscore := by
  intro l
  induction l with
  | nil => intro c hc; simp [replaceRuns] at hc
  | cons a l ih =>
    intro c hc
    by_cases ha : isAlnumLower a = true
    · simp only [replaceRuns, ha, if_true] at hc
      rcases List.mem_cons.1 hc with h | h
      · exact Or.inl (h ▸ ha)
      · exact ih c h
    · rcases hr : replaceRuns l with _ | ⟨d, tl⟩
      · simp only [replaceRuns, ha, if_false, hr] at hc
        simp at hc
        exact Or.inr hc
      · by_cases hd : d = uscore
        · simp only [replaceRuns, ha, if_false, hr, hd, if_true] at hc
          exact ih c (hr ▸ (hd ▸ hc))
        · simp only [replaceRuns, ha, if_false, hr, hd, if_false] at hc
          rcases List.mem_cons.1 hc with h | h
          · exact Or.inr h
          · exact ih c (hr ▸ h)

theorem mem_squeezeU : ∀ (l : List Char) (c : Char), c ∈ squeezeU l →
    c ∈ l ∨ c = uscore := by
  intro l
  induction l with
  | nil => intro c hc; simp [squeezeU] at hc
  | cons a l ih =>
    intro c hc
    by_cases ha : a = uscore
    · rcases hr : squeezeU l with _ | ⟨d, tl⟩
      · simp only [squeezeU, ha, if_true, hr] at hc
        simp at hc
        exact Or.inr hc
      · by_cases hd : d = uscore
        · simp only [squeezeU, ha, if_true, hr, hd] at hc
          rcases ih c (hr ▸ (hd ▸ hc)) with h | h
          · exact Or.inl (List.mem_cons_of_mem a h)
          · exact Or.inr h
        · simp only [squeezeU, ha, if_true, hr, hd, if_false] at hc
          rcases List.mem_cons.1 hc with h | h
          · exact Or.inr h
          · rcases ih c (hr ▸ h) with h2 | h2
            · exact Or.inl (List.mem_cons_of_mem a h2)
            · exact Or.inr h2
    · simp only [squeezeU, ha, if_false] at hc
      rcases List.mem_cons.1 hc with h | h
      · exact Or.inl (h ▸ List.mem_cons_self a l)
      · rcases ih c h with h2 | h2
        · exact Or.inl (List.mem_cons_of_mem a h2)
        · exact Or.inr h2

theorem mem_dropU : ∀ (l : List Char) (c : Char), c ∈ dropU l → c ∈ l := by
  intro l
  induction l with
  | nil => intro c hc; simp [dropU] at hc
  | cons a l ih =>
    intro c hc
    by_cases ha : a = uscore
    · simp only [dropU, ha, if_true] at hc
      exact List.mem_cons_of_mem a (ih c hc)
    · simpa only [dropU, ha, if_false] using hc

theorem mem_stripU (l : List Char) (c : Char) (hc : c ∈ stripU l) : c ∈ l := by
  unfold stripU at hc
  rw [List.mem_reverse] at hc
  have h2 := mem_dropU _ _ hc
  rw [List.mem_reverse] at h2
  exact mem_dropU _ _ h2

/-- The relation "not both underscores" used for well-formed slugs. -/
def noDD (a b : Char) : Prop := ¬(a = uscore ∧ b = uscore)

theorem chain'_squeezeU : ∀ l : List Char, (squeezeU l).Chain' noDD := by
  intro l
  induction l with
  | nil => simp [squeezeU]
  | cons a l ih =>
    by_cases ha : a = uscore
    · rcases hr : squeezeU l with _ | ⟨d, tl⟩
      · simp [squeezeU, ha, hr]
      · by_cases hd : d = uscore
        · simp only [squeezeU, ha, if_true, hr, hd]
          rw [hr, hd] at ih
          exact ih
        · simp only [squeezeU, ha, if_true, hr, hd, if_false]
          exact List.chain'_cons.2 ⟨fun h => hd h.2, hr ▸ ih⟩
    · simp only [squeezeU, ha, if_false]
      rcases hr : squeezeU l with _ | ⟨d, tl⟩
      · simp
      · exact List.chain'_cons.2 ⟨fun h => ha h.1, hr ▸ ih⟩

theorem dropU_suffix : ∀ l : List Char, dropU l <:+ l := by
  intro l
  induction l with
  | nil => simp [dropU]
  | cons a l ih =>
    by_cases ha : a = uscore
    · simp only [dropU, ha, if_true]
      exact ih.trans (List.suffix_cons _ l)
    · simp [dropU, ha]

theorem dropU_head_not (l : List Char) : (dropU l).head? ≠ some uscore := by
  induction l with
  | nil => simp [dropU]
  | cons a l ih =>
    by_cases ha : a = uscore
    · simpa only [dropU, ha, if_true] using ih
    · simp [dropU, ha]

theorem stripU_getLast_not (l : List Char) : (stripU l).getLast? ≠ some uscore := by
  unfold stripU
  rw [List.getLast?_reverse]
  exact dropU_head_not _

theorem stripU_head_not (l : List Char) : (stripU l).head? ≠ some uscore := by
  unfold stripU
  rw [List.head?_reverse]
  rcases hB : dropU ((dropU l).reverse) with _ | ⟨d, tl⟩
  · simp
  · obtain ⟨t, ht⟩ := dropU_suffix ((dropU l).reverse)
    rw [hB] at ht
    have h1 : (d :: tl).getLast? = ((dropU l).reverse).getLast? := by
      rw [← ht]
      exact (List.getLast?_append_of_ne_nil t (by simp)).symm
    rw [h1, List.getLast?_reverse]
    exact dropU_head_not l

theorem chain_noDD_reverse {m : List Char} (h : m.Chain' noDD) : m.reverse.Chain' noDD := by
  rw [List.chain'_reverse]
  exact h.imp (fun a b hab hc => hab ⟨hc.2, hc.1⟩)

theorem stripU_chain (l : List Char) (h : l.Chain' noDD) : (stripU l).Chain' noDD :=
  chain_noDD_reverse ((chain_noDD_reverse (h.suffix (dropU_suffix l))).suffix (dropU_suffix _))

theorem dropWS_eq_self (l : List Char) (h : ∀ c ∈ l, c.isWhitespace = false) :
    dropWS l = l := by
  cases l with
  | nil => rfl
  | cons a l => simp [dropWS, h a (List.mem_cons_self a l)]

theorem replaceRuns_eq_self : ∀ l : List Char,
    (∀ c ∈ l, isAlnumLower c = true ∨ c = uscore) → l.Chain' noDD →
    replaceRuns l = l := by
  intro l
  induction l with
  | nil => intro _ _; rfl
  | cons a l ih =>
    intro h1 h2
    have ihl := ih (fun c hc => h1 c (List.mem_cons_of_mem a hc)) h2.tail
    by_cases ha : isAlnumLower a = true
    · simp [replaceRuns, ha, ihl]
    · have hau : a = uscore := (h1 a (List.mem_cons_self a l)).resolve_left ha
      cases l with
      | nil => simp [replaceRuns, ha, hau]
      | cons d tl =>
        have hd : d ≠ uscore := by
          intro hdu
          exact (List.chain'_cons.1 h2).1 ⟨hau, hdu⟩
        show (if isAlnumLower a = true then a :: replaceRuns (d :: tl)
          else match replaceRuns (d :: tl) with
            | [] => [uscore]
            | d :: tl => if d = uscore then d :: tl else uscore :: d :: tl) = a :: d :: tl
        rw [if_neg ha, ihl]
        show (if d = uscore then d :: tl else uscore :: d :: tl) = a :: d :: tl
        rw [if_neg hd, hau]

theorem squeezeU_eq_self : ∀ l : List Char, l.Chain' noDD → squeezeU l = l := by
  intro l
  induction l with
  | nil => intro _; rfl
  | cons a l ih =>
    intro h2
    have ihl := ih h2.tail
    by_cases ha : a = uscore
    · cases l with
      | nil => simp [squeezeU, ha]
      | cons d tl =>
        have hd : d ≠ uscore := by
          intro hdu
          exact (List.chain'_cons.1 h2).1 ⟨ha, hdu⟩
        show (if a = uscore then
            match squeezeU (d :: tl) with
            | [] => [uscore]
            | d :: tl => if d = uscore then d :: tl else uscore :: d :: tl
          else a :: squeezeU (d :: tl)) = a :: d :: tl
        rw [ihl, if_pos ha]
        show (if d = uscore then d :: tl else uscore :: d :: tl) = a :: d :: tl
        rw [if_neg hd, ha]
    · simp [squeezeU, ha, ihl]

theorem dropU_eq_self (l : List Char) (h : l.head? ≠ some uscore) : dropU l = l := by
  cases l with
  | nil => rfl
  | cons a l =>
    have : a ≠ uscore := by
      intro ha
      exact h (by simp [ha])
    simp [dropU, this]

theorem stripU_eq_self (l : List Char) (hh : l.head? ≠ some uscore)
    (hl : l.getLast? ≠ some uscore) : stripU l = l := by
  unfold stripU
  rw [dropU_eq_self l hh, dropU_eq_self _ (by rwa [List.head?_reverse]),
      List.reverse_reverse]

/-- The output of `to_id` always satisfies the slug well-formedness facts. -/
theorem to_id_props (name : String) :
    (∀ c ∈ (to_id name).data, isAlnumLower c = true ∨ c = uscore) ∧
    (to_id name).data.Chain' noDD ∧
    (to_id name).data.head? ≠ some uscore ∧
    (to_id name).data.getLast? ≠ some uscore := by
  refine ⟨?_, ?_, ?_, ?_⟩
  · intro c hc
    have h1 := mem_stripU _ _ hc
    rcases mem_squeezeU _ _ h1 with h2 | h2
    · exact mem_replaceRuns _ _ h2
    · exact Or.inr h2
  · exact stripU_chain _ (chain'_squeezeU _)
  · exact stripU_head_not _
  · exact stripU_getLast_not _

/-- `to_id` is the identity on strings satisfying the slug facts. -/
theorem to_id_fix (s : String)
    (h1 : ∀ c ∈ s.data, isAlnumLower c = true ∨ c = uscore)
    (h2 : s.data.Chain' noDD)
    (h3 : s.data.head? ≠ some uscore)
    (h4 : s.data.getLast? ≠ some uscore) : to_id s = s := by
  have hstrip : pyStrip s = s := by
    unfold pyStrip
    rw [dropWS_eq_self _ (fun c hc => slugChar_not_ws (h1 c hc)),
        dropWS_eq_self _ (fun c hc => slugChar_not_ws (h1 c (List.mem_reverse.1 hc))),
        List.reverse_reverse]
  have hlower : pyLower s = s := by
    unfold pyLower
    rw [List.map_congr_left (fun c hc => slugChar_toLower (h1 c hc))]
    show String.mk (s.data.map id) = s
    rw [List.map_id]
  have hfilter : s.data.filter (fun c => c ≠ apos) = s.data :=
    List.filter_eq_self.2 (fun c hc => by simpa using slugChar_not_apos (h1 c hc))
  unfold to_id
  rw [hstrip, hlower, hfilter]
  show String.mk (stripU (squeezeU (replaceRuns s.data))) = s
  rw [replaceRuns_eq_self _ h1 h2, squeezeU_eq_self _ h2, stripU_eq_self _ h3 h4]

/-- Claim C8: applying the `to_id` slugify rule twice yields the same id as
applying it once, and the resulting id contains only lowercase letters,
digits and single underscores, with no leading or trailing underscore. -/
theorem C8_to_id_idempotent_wellformed (name : String) :
    to_id (to_id name) = to_id name ∧ slugOk (to_id name) = true := by
  obtain ⟨h1, h2, h3, h4⟩ := to_id_props name
  refine ⟨to_id_fix _ h1 h2 h3 h4, ?_⟩
  unfold slugOk
  rw [Bool.and_eq_true, Bool.and_eq_true, Bool.and_eq_true]
  refine ⟨⟨⟨?_, ?_⟩, ?_⟩, ?_⟩
  · rw [List.all_eq_true]
    intro c hc
    rcases h1 c hc with h | h
    · simp [h]
    · simp [h]
  · exact decide_eq_true h2
  · exact decide_eq_true h3
  · exact decide_eq_true h4

-- =============================================================================
-- Lemmas: substring containment
-- =============================================================================

theorem isPre_append : ∀ (t l r : List Char), isPre t l = true → isPre t (l ++ r) = true := by
  intro t
  induction t with
  | nil => intro l r _; rfl
  | cons a as ih =>
    intro l r h
    cases l with
    | nil => simp [isPre] at h
    | cons b bs =>
      rw [List.cons_append]
      simp only [isPre, Bool.and_eq_true] at h ⊢
      exact ⟨h.1, ih bs r h.2⟩

theorem hasSub_nil_left : ∀ l : List Char, hasSub [] l = true := by
  intro l
  cases l <;> simp [hasSub, isPre]

theorem hasSub_append_right : ∀ (t l r : List Char),
    hasSub t l = true → hasSub t (l ++ r) = true := by
  intro t l
  induction l with
  | nil =>
    intro r h
    simp only [hasSub] at h
    cases t with
    | nil => simpa using hasSub_nil_left r
    | cons a as => simp [isPre] at h
  | cons c cs ih =>
    intro r h
    rw [List.cons_append]
    simp only [hasSub, Bool.or_eq_true] at h ⊢
    rcases h with h | h
    · exact Or.inl (isPre_append t (c :: cs) r h)
    · exact Or.inr (ih r h)

theorem hasSub_append_left : ∀ (l t r : List Char),
    hasSub t r = true → hasSub t (l ++ r) = true := by
  intro l
  induction l with
  | nil => intro t r h; simpa using h
  | cons c cs ih =>
    intro t r h
    rw [List.cons_append]
    simp only [hasSub, Bool.or_eq_true]
    exact Or.inr (ih t r h)

/-- If a token occurs in the lowercased core, it occurs in the lowercasing of
any string that embeds the core between a prefix and a suffix. -/
theorem strIn_extend (tok core pre post : String)
    (h : strIn tok (pyLower core) = true) :
    strIn tok (pyLower (pre ++ core ++ post)) = true := by
  unfold strIn pyLower at h ⊢
  simp only [String.data_append, List.map_append]
  exact hasSub_append_right _ _ _ (hasSub_append_left _ _ _ h)

-- =============================================================================
-- Lemmas: random primitives
-- =============================================================================

theorem choice_mem {α : Type} (l : List α) (d : α) (s : RS) (h : l ≠ []) :
    (choice l d s).1 ∈ l := by
  unfold choice rand
  have hlen : 0 < l.length := List.length_pos.2 h
  have hidx : (Int.toNat ⌊s.stream s.idx * (l.length : ℚ)⌋) % l.length < l.length :=
    Nat.mod_lt _ hlen
  simp only []
  rw [List.getD_eq_getElem?_getD, List.getElem?_eq_getElem hidx]
  simp only [Option.getD_some]
  exact List.getElem_mem hidx

theorem randint_bounds (a b : Nat) (s : RS) (h : a ≤ b) :
    a ≤ (randint a b s).1 ∧ (randint a b s).1 ≤ b := by
  unfold randint rand
  simp only []
  have hk : 0 < b + 1 - a := by omega
  have hm := Nat.mod_lt (Int.toNat ⌊s.stream s.idx * ((b + 1 - a : Nat) : ℚ)⌋) hk
  omega

-- =============================================================================
-- Lemmas: name shapes
-- =============================================================================

theorem uniqueLoop_shape (base : String) : ∀ (fuel : Nat) (n : String) (s : RS),
    (∃ r0, n.data = base.data ++ r0) →
    ∃ r1, (uniqueLoop base fuel n s).1.data = base.data ++ r1 := by
  intro fuel
  induction fuel with
  | zero => intro n s h; exact h
  | succ fuel ih =>
    intro n s h
    unfold uniqueLoop
    by_cases hm : s.used.elem n = true
    · rw [if_pos hm]
      refine ih _ _ ?_
      exact ⟨(" " ++ toString (randint 0 999 s).1).data, by simp⟩
    · rw [if_neg hm]
      exact h

theorem flavored_shape (base : String) (asuf afl : Bool) (s : RS) :
    ∃ r0, (flavored base asuf afl s).1.data = base.data ++ r0 := by
  unfold flavored
  by_cases h1 : (afl && asuf) = true
  · rw [if_pos h1]
    by_cases h2 : (rand s).1 < 1/2
    · simp only [if_pos h2]
      exact ⟨(choice SUFFIX_FLAVOR " of Dawn" (rand s).2).1.data, by simp⟩
    · simp only [if_neg h2]
      exact ⟨[], by simp⟩
  · rw [if_neg h1]
    exact ⟨[], by simp⟩

theorem unique_name_shape (base : String) (asuf afl : Bool) (s : RS) :
    ∃ r1, (unique_name base asuf afl s).1.data = base.data ++ r1 := by
  show ∃ r1, (uniqueLoop base 20 (flavored base asuf afl s).1
      (flavored base asuf afl s).2).1.data = base.data ++ r1
  exact uniqueLoop_shape base 20 _ _ (flavored_shape base asuf afl s)

/-- If a token occurs in the lowercased core then it occurs in the lowercased
output of `unique_name` applied to `pre ++ core`. -/
theorem strIn_unique_name (tok core pre : String) (asuf afl : Bool) (s : RS)
    (h : strIn tok (pyLower core) = true) :
    strIn tok (pyLower (unique_name (pre ++ core) asuf afl s).1) = true := by
  obtain ⟨r1, hr1⟩ := unique_name_shape (pre ++ core) asuf afl s
  unfold strIn pyLower at h ⊢
  have h2 : hasSub tok.data (List.map Char.toLower core.data) = true := h
  rw [hr1]
  simp only [String.data_append, List.map_append, List.append_assoc]
  exact hasSub_append_left _ _ _ (hasSub_append_right _ _ _ h2)

-- =============================================================================
-- Lemmas: vocabulary facts (finite checks) and per-builder name consistency
-- =============================================================================

theorem weapon_core_tok : ∀ p ∈ WEAPON_NAME_CORES,
    ∃ tok ∈ tokensOfW p.2, strIn tok (pyLower p.1) = true := by decide

theorem armor_core_tok : ∀ core ∈ ARMOR_CORES,
    ∃ tok ∈ ARMOR_TOKENS, strIn tok (pyLower core) = true := by decide

theorem accessory_core_tok : ∀ p ∈ ACCESSORY_NAME_CORES,
    strIn p.2 (pyLower p.1) = true := by decide

theorem consumable_core_tok : ∀ p ∈ CONSUMABLE_TEMPLATES,
    ∃ k ∈ CONSUMABLE_KEYWORDS, strIn k (pyLower p.1) = true := by decide

theorem material_core_tok : ∀ core ∈ MATERIAL_CORES,
    ∃ tok ∈ MATERIAL_ASSERT_TOKENS, strIn tok (pyLower core) = true := by decide

theorem name_weapon_tok (s : RS) :
    ∃ tok ∈ tokensOfW (name_weapon s).1.2,
      strIn tok (pyLower (name_weapon s).1.1) = true := by
  obtain ⟨tok, htok, hin⟩ :=
    weapon_core_tok _ (choice_mem WEAPON_NAME_CORES ("Sword", "sword") s (by decide))
  exact ⟨tok, htok, strIn_unique_name tok _ _ true true _ hin⟩

theorem name_armor_tok (s : RS) :
    ∃ tok ∈ ARMOR_TOKENS, strIn tok (pyLower (name_armor s).1) = true := by
  obtain ⟨tok, htok, hin⟩ :=
    armor_core_tok _ (choice_mem ARMOR_CORES "Armor"
      (choice PFX_COMMON "Iron" s).2 (by decide))
  exact ⟨tok, htok, strIn_unique_name tok _ _ true true _ hin⟩

theorem name_accessory_tok (s : RS) :
    strIn (name_accessory s).1.2 (pyLower (name_accessory s).1.1) = true := by
  have hin :=
    accessory_core_tok _ (choice_mem ACCESSORY_NAME_CORES ("Ring", "ring") s (by decide))
  exact strIn_unique_name _ _ _ true true _ hin

theorem name_consumable_tok (s : RS) :
    ∃ k ∈ CONSUMABLE_KEYWORDS, strIn k (pyLower (name_consumable s).1.1) = true := by
  obtain ⟨k, hk, hin⟩ :=
    consumable_core_tok _ (choice_mem CONSUMABLE_TEMPLATES ("Health Potion", "heal") s (by decide))
  have h2 : strIn k (pyLower ("" ++ (choice CONSUMABLE_TEMPLATES ("Health Potion", "heal") s).1.1)) = true := by
    simpa using hin
  exact ⟨k, hk, strIn_unique_name k _ "" false false _ h2⟩

theorem name_material_tok (s : RS) :
    ∃ tok ∈ MATERIAL_ASSERT_TOKENS, strIn tok (pyLower (name_material s).1) = true := by
  obtain ⟨tok, htok, hin⟩ :=
    material_core_tok _ (choice_mem MATERIAL_CORES "Ingot"
      (choice PFX_COMMON "Iron" s).2 (by decide))
  exact ⟨tok, htok, strIn_unique_name tok _ _ false false _ hin⟩

theorem armorCheck_of_tok (n : String)
    (h : ∃ tok ∈ ARMOR_TOKENS, strIn tok (pyLower n) = true) :
    armorTokCheck n = true := by
  obtain ⟨tok, htok, hin⟩ := h
  exact List.any_eq_true.2 ⟨tok, htok, hin⟩

theorem armorRetry_tok : ∀ (fuel : Nat) (n : String) (s : RS),
    (∃ tok ∈ ARMOR_TOKENS, strIn tok (pyLower n) = true) →
    ∃ tok ∈ ARMOR_TOKENS, strIn tok (pyLower (armorRetry fuel n s).1) = true := by
  intro fuel
  induction fuel with
  | zero => intro n s h; exact h
  | succ fuel ih =>
    intro n s h
    unfold armorRetry
    rw [if_pos (armorCheck_of_tok n h)]
    exact h

theorem weapon_item_tok (s : RS) :
    ∃ tok ∈ tokensOfW (weapon_item s).1.weapon_type,
      strIn tok (pyLower (weapon_item s).1.name) = true :=
  name_weapon_tok (pick_rarity s).2

theorem armor_item_tok (s : RS) :
    ∃ tok ∈ ARMOR_TOKENS, strIn tok (pyLower (armor_item s).1.name) = true :=
  armorRetry_tok 5 (name_armor (pick_rarity s).2).1 (name_armor (pick_rarity s).2).2
    (name_armor_tok (pick_rarity s).2)

theorem accessory_item_tok (s : RS) :
    strIn (accessory_item s).1.accessory_type (pyLower (accessory_item s).1.name) = true :=
  name_accessory_tok (pick_rarity s).2

theorem consumable_item_tok (s : RS) :
    ∃ k ∈ CONSUMABLE_KEYWORDS, strIn k (pyLower (consumable_item s).1.name) = true :=
  name_consumable_tok (pick_rarity s).2

theorem material_item_tok (s : RS) :
    ∃ tok ∈ MATERIAL_ASSERT_TOKENS,
      strIn tok (pyLower (material_item s).1.name) = true :=
  name_material_tok (material_rarity_choice s).2

theorem buildN_forall {α : Type} (f : RS → α × RS) (P : α → Prop)
    (hf : ∀ s, P (f s).1) :
    ∀ (n : Nat) (s : RS) (x : α), x ∈ (buildN f n s).1 → P x := by
  intro n
  induction n with
  | zero => intro s x hx; simp [buildN] at hx
  | succ n ih =>
    intro s x hx
    rcases List.mem_cons.1 (show x ∈ (f s).1 :: (buildN f n (f s).2).1 from hx) with h | h
    · exact h ▸ hf s
    · exact ih (f s).2 x h

/-- Claim C3: for every generated item, the lowercased name contains at
least one vocabulary token of its declared subtype (weapons via
`TYPE_TO_WEAPON_TOKENS[weapon_type]`, accessories via the accessory-type
token) or of its category vocabulary (armor suit tokens, consumable potion
keywords, material noun tokens). -/
theorem C3_name_type_consistency (seedStream : Int → Nat → ℚ) (cfg : GenConfig)
    (u0 : List String) :
    (∀ it ∈ (generate seedStream cfg u0).1.categories.weapons,
      ∃ tok ∈ tokensOfW it.weapon_type, strIn tok (pyLower it.name) = true) ∧
    (∀ it ∈ (generate seedStream cfg u0).1.categories.armor,
      ∃ tok ∈ ARMOR_TOKENS, strIn tok (pyLower it.name) = true) ∧
    (∀ it ∈ (generate seedStream cfg u0).1.categories.accessories,
      strIn it.accessory_type (pyLower it.name) = true) ∧
    (∀ it ∈ (generate seedStream cfg u0).1.categories.consumables,
      ∃ k ∈ CONSUMABLE_KEYWORDS, strIn k (pyLower it.name) = true) ∧
    (∀ it ∈ (generate seedStream cfg u0).1.categories.materials,
      ∃ tok ∈ MATERIAL_ASSERT_TOKENS, strIn tok (pyLower it.name) = true) := by
  refine ⟨?_, ?_, ?_, ?_, ?_⟩
  · exact fun it h => buildN_forall weapon_item
      (fun it => ∃ tok ∈ tokensOfW it.weapon_type, strIn tok (pyLower it.name) = true)
      weapon_item_tok _ _ it h
  · exact fun it h => buildN_forall armor_item
      (fun it => ∃ tok ∈ ARMOR_TOKENS, strIn tok (pyLower it.name) = true)
      armor_item_tok _ _ it h
  · exact fun it h => buildN_forall accessory_item
      (fun it => strIn it.accessory_type (pyLower it.name) = true)
      accessory_item_tok _ _ it h
  · exact fun it h => buildN_forall consumable_item
      (fun it => ∃ k ∈ CONSUMABLE_KEYWORDS, strIn k (pyLower it.name) = true)
      consumable_item_tok _ _ it h
  · exact fun it h => buildN_forall material_item
      (fun it => ∃ tok ∈ MATERIAL_ASSERT_TOKENS, strIn tok (pyLower it.name) = true)
      material_item_tok _ _ it h

/-- Witness for C3 at a concrete run: the first weapon of a one-per-category
zero-stream generation satisfies the name/subtype token property. -/
theorem C3_witness :
    ∃ tok ∈ tokensOfW ((generate zeroStream (cfgN 1) []).1.categories.weapons.getD 0
      ⟨"", "", "", "", "", 0, [], [], 0, 0, ⟨"", []⟩, [], ""⟩).weapon_type,
      strIn tok (pyLower ((generate zeroStream (cfgN 1) []).1.categories.weapons.getD 0
        ⟨"", "", "", "", "", 0, [], [], 0, 0, ⟨"", []⟩, [], ""⟩).name) = true :=
  (C3_name_type_consistency zeroStream (cfgN 1) []).1 _ (by with_unfolding_all decide)

theorem armorRetry_stop (fuel : Nat) (n : String) (s : RS)
    (h : armorTokCheck n = true) : armorRetry (fuel + 1) n s = (n, 0, s) := by
  unfold armorRetry
  rw [if_pos h]

/-- Claim C10: every `ARMOR_CORES` entry contains an `ARMOR_TOKENS` token,
and every name `name_armor` produces (flavor suffixes and collision
disambiguators extend the prefix-core base, so the core is preserved)
already passes the armor token check; hence the defensive retry loop of
`armor_item` performs zero iterations and the final armor assertion
condition always holds (the abort branch is unreachable). -/
theorem C10_armor_retry_dead (s : RS) :
    (∀ core ∈ ARMOR_CORES, ∃ tok ∈ ARMOR_TOKENS, strIn tok (pyLower core) = true) ∧
    armorTokCheck (name_armor s).1 = true ∧
    armorRetry 5 (name_armor s).1 (name_armor s).2 =
      ((name_armor s).1, 0, (name_armor s).2) ∧
    armorTokCheck (armor_item s).1.name = true := by
  have hc := armorCheck_of_tok _ (name_armor_tok s)
  exact ⟨armor_core_tok, hc, armorRetry_stop 4 _ _ hc,
    armorCheck_of_tok _ (armor_item_tok s)⟩

/-- Witness for C10 at concrete inputs: the core "Chainmail Armor" contains
an armor token, and the first armor name drawn from the zero stream passes
the token check with zero retries. -/
theorem C10_witness :
    (∃ tok ∈ ARMOR_TOKENS, strIn tok (pyLower "Chainmail Armor") = true) ∧
    armorTokCheck (name_armor s925).1 = true ∧
    armorRetry 5 (name_armor s925).1 (name_armor s925).2 =
      ((name_armor s925).1, 0, (name_armor s925).2) :=
  ⟨(C10_armor_retry_dead s925).1 "Chainmail Armor" (by decide),
   (C10_armor_retry_dead s925).2.1, (C10_armor_retry_dead s925).2.2.1⟩

-- =============================================================================
-- Lemmas: the shared `_used_names` set and the ghost freshness flag.
-- Every randomness helper other than `unique_name` leaves both untouched;
-- `unique_name` conses the committed name and and-s the freshness check.
-- =============================================================================

theorem rand_state (s : RS) : (rand s).2.used = s.used ∧ (rand s).2.fresh = s.fresh :=
  ⟨rfl, rfl⟩

theorem randint_state (a b : Nat) (s : RS) :
    (randint a b s).2.used = s.used ∧ (randint a b s).2.fresh = s.fresh := ⟨rfl, rfl⟩

theorem choice_state {α : Type} (l : List α) (d : α) (s : RS) :
    (choice l d s).2.used = s.used ∧ (choice l d s).2.fresh = s.fresh := ⟨rfl, rfl⟩

theorem uniform_state (a b : ℚ) (s : RS) :
    (rand_uniform a b s).2.used = s.used ∧ (rand_uniform a b s).2.fresh = s.fresh := ⟨rfl, rfl⟩

theorem pick_rarity_state (s : RS) :
    (pick_rarity s).2.used = s.used ∧ (pick_rarity s).2.fresh = s.fresh := ⟨rfl, rfl⟩

theorem material_rarity_state (s : RS) :
    (material_rarity_choice s).2.used = s.used ∧
    (material_rarity_choice s).2.fresh = s.fresh := ⟨rfl, rfl⟩

theorem level_state (r : String) (s : RS) :
    (level_for_rarity r s).2.used = s.used ∧ (level_for_rarity r s).2.fresh = s.fresh :=
  ⟨rfl, rfl⟩

theorem maybe_bonus_state (r : String) (s : RS) :
    (maybe_bonus r s).2.used = s.used ∧ (maybe_bonus r s).2.fresh = s.fresh := ⟨rfl, rfl⟩

theorem crit_state (r : String) (s : RS) :
    (crit_chance r s).2.used = s.used ∧ (crit_chance r s).2.fresh = s.fresh := ⟨rfl, rfl⟩

theorem gold_state (r : String) (mn mx : Nat) (s : RS) :
    (gold_value r mn mx s).2.used = s.used ∧ (gold_value r mn mx s).2.fresh = s.fresh :=
  ⟨rfl, rfl⟩

theorem elem_res_state (r : String) (s : RS) :
    (elem_res r s).2.used = s.used ∧ (elem_res r s).2.fresh = s.fresh := by
  unfold elem_res
  split
  · exact ⟨rfl, rfl⟩
  · split
    · exact ⟨rfl, rfl⟩
    · split
      · exact ⟨rfl, rfl⟩
      · split
        · exact ⟨rfl, rfl⟩
        · exact ⟨rfl, rfl⟩

theorem effLoop_state (r : String) : ∀ (k : Nat) (s : RS),
    (effLoop r k s).2.used = s.used ∧ (effLoop r k s).2.fresh = s.fresh := by
  intro k
  induction k with
  | zero => intro s; exact ⟨rfl, rfl⟩
  | succ k ih =>
    intro s
    unfold effLoop
    constructor
    · rw [(ih _).1]
      split
      · rfl
      · split
        · rfl
        · split <;> rfl
    · rw [(ih _).2]
      split
      · rfl
      · split
        · rfl
        · split <;> rfl

theorem maybe_effects_state (r : String) (s : RS) :
    (maybe_effects r s).2.used = s.used ∧ (maybe_effects r s).2.fresh = s.fresh := by
  simp only [maybe_effects]
  by_cases h : (rand s).1 < 33/100 ∨ r = "rare" ∨ r = "epic" ∨ r = "legendary"
  · rw [if_pos h]
    exact effLoop_state r _ _
  · rw [if_neg h]
    exact ⟨rfl, rfl⟩

theorem craftLoop_state (r : String) (liquid : Bool) : ∀ (k : Nat) (acc : List (String × Nat)) (s : RS),
    (craftLoop r liquid k acc s).2.used = s.used ∧
    (craftLoop r liquid k acc s).2.fresh = s.fresh := by
  intro k
  induction k with
  | zero => intro acc s; exact ⟨rfl, rfl⟩
  | succ k ih =>
    intro acc s
    unfold craftLoop
    constructor
    · rw [(ih _ _).1]
      split <;> rfl
    · rw [(ih _ _).2]
      split <;> rfl

theorem craft_state (r : String) (mn mx : Nat) (liquid : Bool) (s : RS) :
    (craft_mats r mn mx liquid s).2.used = s.used ∧
    (craft_mats r mn mx liquid s).2.fresh = s.fresh :=
  craftLoop_state r liquid _ _ _

theorem build_effect_state (kind r : String) (s : RS) :
    (build_effect kind r s).2.used = s.used ∧ (build_effect kind r s).2.fresh = s.fresh := by
  unfold build_effect
  split
  · exact ⟨rfl, rfl⟩
  · split
    · exact ⟨rfl, rfl⟩
    · split
      · exact ⟨rfl, rfl⟩
      · split
        · exact ⟨rfl, rfl⟩
        · exact ⟨rfl, rfl⟩

theorem flavored_state (base : String) (a f : Bool) (s : RS) :
    (flavored base a f s).2.used = s.used ∧ (flavored base a f s).2.fresh = s.fresh := by
  simp only [flavored]
  split
  · split <;> exact ⟨rfl, rfl⟩
  · exact ⟨rfl, rfl⟩

theorem uniqueLoop_state (base : String) : ∀ (fuel : Nat) (n : String) (s : RS),
    (uniqueLoop base fuel n s).2.used = s.used ∧
    (uniqueLoop base fuel n s).2.fresh = s.fresh := by
  intro fuel
  induction fuel with
  | zero => intro n s; exact ⟨rfl, rfl⟩
  | succ fuel ih =>
    intro n s
    unfold uniqueLoop
    split
    · exact ih _ _
    · exact ⟨rfl, rfl⟩

theorem unique_name_spec (base : String) (a f : Bool) (s : RS) :
    (unique_name base a f s).2.used = (unique_name base a f s).1 :: s.used ∧
    (unique_name base a f s).2.fresh =
      (s.fresh && !(s.used.elem (unique_name base a f s).1)) := by
  have hfl := flavored_state base a f s
  have hlp := uniqueLoop_state base 20 (flavored base a f s).1 (flavored base a f s).2
  constructor
  · show (uniqueLoop base 20 (flavored base a f s).1 (flavored base a f s).2).1 ::
      (uniqueLoop base 20 (flavored base a f s).1 (flavored base a f s).2).2.used = _
    rw [hlp.1, hfl.1]
    rfl
  · show ((uniqueLoop base 20 (flavored base a f s).1 (flavored base a f s).2).2.fresh &&
      !((uniqueLoop base 20 (flavored base a f s).1 (flavored base a f s).2).2.used.elem
        (uniqueLoop base 20 (flavored base a f s).1 (flavored base a f s).2).1)) = _
    rw [hlp.1, hlp.2, hfl.1, hfl.2]
    rfl

theorem weapon_item_state (s : RS) :
    (weapon_item s).2.used = (weapon_item s).1.name :: s.used ∧
    (weapon_item s).2.fresh = (s.fresh && !(s.used.elem (weapon_item s).1.name)) := by
  constructor <;>
    simp only [weapon_item, name_weapon, craft_state, randint_state, gold_state,
      maybe_effects_state, crit_state, maybe_bonus_state, level_state,
      unique_name_spec, choice_state, pick_rarity_state]

theorem armor_item_state (s : RS) :
    (armor_item s).2.used = (armor_item s).1.name :: s.used ∧
    (armor_item s).2.fresh = (s.fresh && !(s.used.elem (armor_item s).1.name)) := by
  have hc := armorCheck_of_tok _ (name_armor_tok (pick_rarity s).2)
  have harr := armorRetry_stop 4 (name_armor (pick_rarity s).2).1
    (name_armor (pick_rarity s).2).2 hc
  constructor <;>
    (simp only [armor_item, harr]
     simp only [name_armor, craft_state, randint_state, gold_state,
       maybe_effects_state, crit_state, maybe_bonus_state, level_state, elem_res_state,
       unique_name_spec, choice_state, pick_rarity_state])

theorem accessory_item_state (s : RS) :
    (accessory_item s).2.used = (accessory_item s).1.name :: s.used ∧
    (accessory_item s).2.fresh = (s.fresh && !(s.used.elem (accessory_item s).1.name)) := by
  constructor <;>
    simp only [accessory_item, name_accessory, craft_state, randint_state, gold_state,
      maybe_effects_state, crit_state, maybe_bonus_state, level_state,
      unique_name_spec, choice_state, pick_rarity_state]

theorem consumable_item_state (s : RS) :
    (consumable_item s).2.used = (consumable_item s).1.name :: s.used ∧
    (consumable_item s).2.fresh = (s.fresh && !(s.used.elem (consumable_item s).1.name)) := by
  constructor <;>
    simp only [consumable_item, name_consumable, craft_state, randint_state, gold_state,
      build_effect_state, maybe_effects_state, crit_state, maybe_bonus_state, level_state,
      unique_name_spec, choice_state, pick_rarity_state]

theorem material_item_state (s : RS) :
    (material_item s).2.used = (material_item s).1.name :: s.used ∧
    (material_item s).2.fresh = (s.fresh && !(s.used.elem (material_item s).1.name)) := by
  constructor <;>
    (simp only [material_item, name_material, craft_state, randint_state, gold_state,
       uniform_state, rand_state, choice_state, material_rarity_state, unique_name_spec]
     split <;>
       simp only [uniform_state, rand_state, choice_state, unique_name_spec,
         material_rarity_state])

theorem inv_step {α : Type} (f : RS → α × RS) (nm : α → String)
    (hu : ∀ s, (f s).2.used = nm (f s).1 :: s.used)
    (hf : ∀ s, (f s).2.fresh = (s.fresh && !(s.used.elem (nm (f s).1))))
    (s : RS) (names : List String) (hinv : Inv names s)
    (hfr : (f s).2.fresh = true) :
    Inv (nm (f s).1 :: names) (f s).2 ∧ s.fresh = true := by
  rw [hf s, Bool.and_eq_true] at hfr
  have hnotin : nm (f s).1 ∉ s.used := by
    intro hmem
    rw [List.elem_iff.2 hmem] at hfr
    simp at hfr
  refine ⟨⟨?_, ?_⟩, hfr.1⟩
  · exact List.nodup_cons.2 ⟨fun hmem => hnotin (hinv.2 _ hmem), hinv.1⟩
  · intro x hx
    rw [hu s]
    rcases List.mem_cons.1 hx with h | h
    · exact h ▸ List.mem_cons_self _ _
    · exact List.mem_cons_of_mem _ (hinv.2 x h)

theorem fresh_down {α : Type} (f : RS → α × RS) (nm : α → String)
    (hf : ∀ s, (f s).2.fresh = (s.fresh && !(s.used.elem (nm (f s).1))))
    (s : RS) (h : (f s).2.fresh = true) : s.fresh = true := by
  rw [hf s, Bool.and_eq_true] at h
  exact h.1

theorem buildN_fresh_down {α : Type} (f : RS → α × RS) (nm : α → String)
    (hf : ∀ s, (f s).2.fresh = (s.fresh && !(s.used.elem (nm (f s).1)))) :
    ∀ (n : Nat) (s : RS), (buildN f n s).2.fresh = true → s.fresh = true := by
  intro n
  induction n with
  | zero => intro s h; exact h
  | succ n ih =>
    intro s h
    exact fresh_down f nm hf s (ih (f s).2 h)

theorem buildN_inv {α : Type} (f : RS → α × RS) (nm : α → String)
    (hu : ∀ s, (f s).2.used = nm (f s).1 :: s.used)
    (hf : ∀ s, (f s).2.fresh = (s.fresh && !(s.used.elem (nm (f s).1)))) :
    ∀ (n : Nat) (s : RS) (names : List String), Inv names s →
      (buildN f n s).2.fresh = true →
      Inv (((buildN f n s).1.map nm).reverse ++ names) (buildN f n s).2 := by
  intro n
  induction n with
  | zero =>
    intro s names hinv _
    simpa [buildN] using hinv
  | succ n ih =>
    intro s names hinv hfr
    have hx : (f s).2.fresh = true :=
      buildN_fresh_down f nm hf n (f s).2 hfr
    have hstep := inv_step f nm hu hf s names hinv hx
    have hrec := ih (f s).2 (nm (f s).1 :: names) hstep.1 hfr
    have hsh : (((buildN f (n + 1) s).1.map nm).reverse ++ names) =
        (((buildN f n (f s).2).1.map nm).reverse ++ (nm (f s).1 :: names)) := by
      show ((((f s).1 :: (buildN f n (f s).2).1).map nm).reverse ++ names) = _
      simp
    rw [hsh]
    exact hrec

theorem buildN_used_mono {α : Type} (f : RS → α × RS) (nm : α → String)
    (hu : ∀ s, (f s).2.used = nm (f s).1 :: s.used) :
    ∀ (n : Nat) (s : RS) (x : String), x ∈ s.used → x ∈ (buildN f n s).2.used := by
  intro n
  induction n with
  | zero => intro s x hx; exact hx
  | succ n ih =>
    intro s x hx
    have h1 : x ∈ (f s).2.used := by
      rw [hu s]
      exact List.mem_cons_of_mem _ hx
    exact ih (f s).2 x h1

/-- Claim C1 (amended): two calls of `generate` with identical `GenConfig`
(and the same PRNG) produce identical documents precisely when they start
from the same used-names state; and `generate` never resets the shared
used-names set — every name in it at entry is still in it at exit.  The
reseed `random.seed(cfg.seed)` restarts only the draw stream, so a second
in-process call starts from the first call's used-names set and diverges
(see the counterexample). -/
theorem C1_deterministic_given_state (seedStream : Int → Nat → ℚ) (cfg : GenConfig)
    (u1 u2 : List String) (h : u1 = u2) :
    (generate seedStream cfg u1).1 = (generate seedStream cfg u2).1 ∧
    ∀ x ∈ u1, x ∈ (generate seedStream cfg u1).2.1.used := by
  subst h
  refine ⟨rfl, fun x hx => ?_⟩
  exact buildN_used_mono material_item (fun it => it.name)
    (fun s => (material_item_state s).1) _ _ x
    (buildN_used_mono consumable_item (fun it => it.name)
      (fun s => (consumable_item_state s).1) _ _ x
      (buildN_used_mono accessory_item (fun it => it.name)
        (fun s => (accessory_item_state s).1) _ _ x
        (buildN_used_mono armor_item (fun it => it.name)
          (fun s => (armor_item_state s).1) _ _ x
          (buildN_used_mono weapon_item (fun it => it.name)
            (fun s => (weapon_item_state s).1) _ _ x hx))))

/-- Witness for the amended C1 at concrete inputs. -/
theorem C1_witness :
    ["Iron Sword"] = ["Iron Sword"] ∧
    ((generate zeroStream (cfgN 1) ["Iron Sword"]).1 =
      (generate zeroStream (cfgN 1) ["Iron Sword"]).1 ∧
     ∀ x ∈ ["Iron Sword"], x ∈ (generate zeroStream (cfgN 1) ["Iron Sword"]).2.1.used) :=
  ⟨rfl, C1_deterministic_given_state zeroStream (cfgN 1) ["Iron Sword"] ["Iron Sword"] rfl⟩

set_option maxRecDepth 100000 in
/-- Counterexample to C1 as stated: with the all-zero draw stream and one
item per category, a second `generate` call in the same process (starting
from the used-names set the first call left behind, exactly as the Python
module-level `_used_names` does) produces a different document — the reseed
does not reset the used-names set. -/
theorem C1_counterexample :
    (generate zeroStream (cfgN 1) []).1 ≠
    (generate zeroStream (cfgN 1) ((generate zeroStream (cfgN 1) []).2.1.used)).1 := by
  with_unfolding_all decide

theorem weapon_id_slug (s : RS) : (weapon_item s).1.id = to_id (weapon_item s).1.name := rfl

theorem armor_id_slug (s : RS) : (armor_item s).1.id = to_id (armor_item s).1.name := rfl

theorem accessory_id_slug (s : RS) : (accessory_item s).1.id = to_id (accessory_item s).1.name := rfl

theorem consumable_id_slug (s : RS) : (consumable_item s).1.id = to_id (consumable_item s).1.name := rfl

theorem material_id_slug (s : RS) : (material_item s).1.id = to_id (material_item s).1.name := rfl

/-- The ids of a generated document are exactly the `to_id` slugs of its
names, in order: every builder derives `id = to_id name` from the committed
name. -/
theorem docIds_eq (seedStream : Int → Nat → ℚ) (cfg : GenConfig) (u0 : List String) :
    docIds (generate seedStream cfg u0).1 =
      (docNames (generate seedStream cfg u0).1).map to_id := by
  simp only [generate, docIds, docNames, List.map_append, List.map_map]
  refine congrArg₂ _ (congrArg₂ _ (congrArg₂ _ (congrArg₂ _ ?_ ?_) ?_) ?_) ?_
  · exact List.map_congr_left (fun x hx =>
      buildN_forall weapon_item (fun it => it.id = to_id it.name) weapon_id_slug _ _ x hx)
  · exact List.map_congr_left (fun x hx =>
      buildN_forall armor_item (fun it => it.id = to_id it.name) armor_id_slug _ _ x hx)
  · exact List.map_congr_left (fun x hx =>
      buildN_forall accessory_item (fun it => it.id = to_id it.name) accessory_id_slug _ _ x hx)
  · exact List.map_congr_left (fun x hx =>
      buildN_forall consumable_item (fun it => it.id = to_id it.name) consumable_id_slug _ _ x hx)
  · exact List.map_congr_left (fun x hx =>
      buildN_forall material_item (fun it => it.id = to_id it.name) material_id_slug _ _ x hx)

/-- Claim C2 (amended): provided no `unique_name` call during the run
exhausts its 20-try collision budget — i.e. every committed name was still
fresh, which the ghost flag `fresh` records — no two items across the five
category lists share a name; the ids are exactly the `to_id` slugs of the
names; and the ids are also pairwise distinct provided additionally no two
distinct committed names slugify to the same id (the program enforces
name-freshness only, never id-freshness).  As originally stated the claim
fails: a run that exhausts the budget commits a duplicate name and hence a
duplicate id — see the counterexample. -/
theorem C2_unique_ids_when_fresh (seedStream : Int → Nat → ℚ) (cfg : GenConfig)
    (u0 : List String) (h : (generate seedStream cfg u0).2.1.fresh = true)
    (hinj : ∀ x ∈ docNames (generate seedStream cfg u0).1,
      ∀ y ∈ docNames (generate seedStream cfg u0).1, to_id x = to_id y → x = y) :
    (docNames (generate seedStream cfg u0).1).Nodup ∧
    docIds (generate seedStream cfg u0).1 =
      (docNames (generate seedStream cfg u0).1).map to_id ∧
    (docIds (generate seedStream cfg u0).1).Nodup := by
  have hnames : (docNames (generate seedStream cfg u0).1).Nodup := by
    simp only [generate, docNames] at h ⊢
    set S0 : RS := { stream := seedStream cfg.seed, idx := 0, used := u0, fresh := true }
      with hS0
    set W := buildN weapon_item cfg.per_category S0 with hW
    set A := buildN armor_item cfg.per_category W.2 with hA
    set X := buildN accessory_item cfg.per_category A.2 with hX
    set C := buildN consumable_item cfg.per_category X.2 with hC
    set M := buildN material_item cfg.per_category C.2 with hM
    have hCf : C.2.fresh = true := by
      rw [hM] at h
      exact buildN_fresh_down material_item (fun it => it.name)
        (fun s => (material_item_state s).2) _ _ h
    have hXf : X.2.fresh = true := by
      rw [hC] at hCf
      exact buildN_fresh_down consumable_item (fun it => it.name)
        (fun s => (consumable_item_state s).2) _ _ hCf
    have hAf : A.2.fresh = true := by
      rw [hX] at hXf
      exact buildN_fresh_down accessory_item (fun it => it.name)
        (fun s => (accessory_item_state s).2) _ _ hXf
    have hWf : W.2.fresh = true := by
      rw [hA] at hAf
      exact buildN_fresh_down armor_item (fun it => it.name)
        (fun s => (armor_item_state s).2) _ _ hAf
    have inv0 : Inv [] S0 := ⟨List.nodup_nil, by simp⟩
    have iW : Inv ((W.1.map (fun it => it.name)).reverse ++ []) W.2 := by
      rw [hW] at hWf ⊢
      exact buildN_inv weapon_item (fun it => it.name)
        (fun s => (weapon_item_state s).1) (fun s => (weapon_item_state s).2)
        _ _ _ inv0 hWf
    have iA : Inv ((A.1.map (fun it => it.name)).reverse ++
        ((W.1.map (fun it => it.name)).reverse ++ [])) A.2 := by
      rw [hA] at hAf ⊢
      exact buildN_inv armor_item (fun it => it.name)
        (fun s => (armor_item_state s).1) (fun s => (armor_item_state s).2)
        _ _ _ iW hAf
    have iX : Inv ((X.1.map (fun it => it.name)).reverse ++
        ((A.1.map (fun it => it.name)).reverse ++
        ((W.1.map (fun it => it.name)).reverse ++ []))) X.2 := by
      rw [hX] at hXf ⊢
      exact buildN_inv accessory_item (fun it => it.name)
        (fun s => (accessory_item_state s).1) (fun s => (accessory_item_state s).2)
        _ _ _ iA hXf
    have iC : Inv ((C.1.map (fun it => it.name)).reverse ++
        ((X.1.map (fun it => it.name)).reverse ++
        ((A.1.map (fun it => it.name)).reverse ++
        ((W.1.map (fun it => it.name)).reverse ++ [])))) C.2 := by
      rw [hC] at hCf ⊢
      exact buildN_inv consumable_item (fun it => it.name)
        (fun s => (consumable_item_state s).1) (fun s => (consumable_item_state s).2)
        _ _ _ iX hCf
    have iM : Inv ((M.1.map (fun it => it.name)).reverse ++
        ((C.1.map (fun it => it.name)).reverse ++
        ((X.1.map (fun it => it.name)).reverse ++
        ((A.1.map (fun it => it.name)).reverse ++
        ((W.1.map (fun it => it.name)).reverse ++ []))))) M.2 := by
      rw [hM] at h ⊢
      exact buildN_inv material_item (fun it => it.name)
        (fun s => (material_item_state s).1) (fun s => (material_item_state s).2)
        _ _ _ iC h
    have hbig := iM.1
    have hperm : ((M.1.map (fun it : MItem => it.name)).reverse ++
        ((C.1.map (fun it : PItem => it.name)).reverse ++
        ((X.1.map (fun it : XItem => it.name)).reverse ++
        ((A.1.map (fun it : AItem => it.name)).reverse ++
        ((W.1.map (fun it : WItem => it.name)).reverse ++ []))))).Perm
        (W.1.map (fun it : WItem => it.name) ++ A.1.map (fun it : AItem => it.name) ++
         X.1.map (fun it : XItem => it.name) ++ C.1.map (fun it : PItem => it.name) ++
         M.1.map (fun it : MItem => it.name)) := by
      rw [← Multiset.coe_eq_coe]
      simp only [← Multiset.coe_add, Multiset.coe_reverse, Multiset.coe_nil]
      abel
    exact hperm.nodup hbig
  refine ⟨hnames, docIds_eq seedStream cfg u0, ?_⟩
  rw [docIds_eq seedStream cfg u0]
  exact List.Nodup.map_on hinj hnames

set_option maxRecDepth 1000000 in
/-- Witness for the amended C2: the one-per-category zero-stream run never
exhausts a collision budget (the ghost flag stays true), no two of its five
committed names slugify identically, and the resulting document carries
pairwise-distinct ids. -/
theorem C2_witness :
    ((generate zeroStream (cfgN 1) []).2.1.fresh = true ∧
     (∀ x ∈ docNames (generate zeroStream (cfgN 1) []).1,
      ∀ y ∈ docNames (generate zeroStream (cfgN 1) []).1, to_id x = to_id y → x = y)) ∧
    (docIds (generate zeroStream (cfgN 1) []).1).Nodup :=
  ⟨⟨by with_unfolding_all decide, by with_unfolding_all decide⟩,
   (C2_unique_ids_when_fresh zeroStream (cfgN 1) [] (by with_unfolding_all decide)
     (by with_unfolding_all decide)).2.2⟩

set_option maxRecDepth 1000000 in
/-- Counterexample to C2 as stated: with the all-zero draw stream and three
items per category, the third weapon's collision loop exhausts its 20-try
budget (every disambiguator draw is 0) and commits the same name — hence the
same id — as the second weapon, so the document carries duplicate ids. -/
theorem C2_counterexample :
    ¬ (docIds (generate zeroStream (cfgN 3) []).1).Nodup := by
  with_unfolding_all decide

/-- Claim C4 (amended): the weapon, armor, accessory and consumable builders
pick their item's rarity with `pick_rarity`, whose single draw is classified
by the cumulative thresholds 0.45 / 0.75 / 0.92 / 0.985; `material_item`
instead samples `random.choices(RARITY_ORDER, weights=[45,30,18,6,1])`,
i.e. cumulative cuts 0.45 / 0.75 / 0.93 / 0.99 — a different distribution
(rare 18% instead of 17%, epic 6% instead of 6.5%, legendary 1% instead of
1.5%). -/
theorem C4_rarity_distributions (s : RS) :
    (weapon_item s).1.rarity = (pick_rarity s).1 ∧
    (armor_item s).1.rarity = (pick_rarity s).1 ∧
    (accessory_item s).1.rarity = (pick_rarity s).1 ∧
    (consumable_item s).1.rarity = (pick_rarity s).1 ∧
    (material_item s).1.rarity = (material_rarity_choice s).1 ∧
    ((pick_rarity s).1 = "common" ↔ (rand s).1 < 45/100) ∧
    ((pick_rarity s).1 = "uncommon" ↔ (45/100 ≤ (rand s).1 ∧ (rand s).1 < 75/100)) ∧
    ((pick_rarity s).1 = "rare" ↔ (75/100 ≤ (rand s).1 ∧ (rand s).1 < 92/100)) ∧
    ((pick_rarity s).1 = "epic" ↔ (92/100 ≤ (rand s).1 ∧ (rand s).1 < 985/1000)) ∧
    ((pick_rarity s).1 = "legendary" ↔ 985/1000 ≤ (rand s).1) ∧
    ((material_rarity_choice s).1 = "rare" ↔
      (75 ≤ (rand s).1 * 100 ∧ (rand s).1 * 100 < 93)) ∧
    ((material_rarity_choice s).1 = "epic" ↔
      (93 ≤ (rand s).1 * 100 ∧ (rand s).1 * 100 < 99)) := by
  refine ⟨rfl, rfl, rfl, rfl, rfl, ?_, ?_, ?_, ?_, ?_, ?_, ?_⟩ <;>
    (simp only [pick_rarity, material_rarity_choice, rand]
     split_ifs <;> simp_all [not_lt] <;> (intros; linarith))

/-- Counterexample to C4 as stated: at the draw 0.925 `pick_rarity` answers
"epic" (0.92 ≤ q < 0.985), but `material_item` — whose very first draw is
its rarity choice — labels its item "rare" (0.925 · 100 < 93): the material
builder does not select by `pick_rarity`'s cumulative distribution. -/
theorem C4_counterexample :
    (material_item s925).1.rarity = "rare" ∧ (pick_rarity s925).1 = "epic" := by
  constructor <;> with_unfolding_all decide

/-- Claim C5 (amended): `generate` itself performs exactly one file-system
effect — `os.makedirs` on the output path's directory, executed inside
`generate` before any item is built; only the file write happens outside
generation, in `write_json`. -/
theorem C5_effects (seedStream : Int → Nat → ℚ) (cfg : GenConfig) (u0 : List String)
    (d : Document) :
    (generate seedStream cfg u0).2.2 = [FSEffect.makedirs (dirname cfg.out_path)] ∧
    write_json cfg.out_path d = [FSEffect.writeFile cfg.out_path] :=
  ⟨rfl, rfl⟩

/-- Counterexample to C5 as stated: with the default output path,
`generate` — not the final write step — creates the `assets/data` directory:
its effect trace is non-empty. -/
theorem C5_counterexample :
    (generate zeroStream { per_category := 0 } []).2.2 ≠ ([] : List FSEffect) := by
  with_unfolding_all decide

/-- One unfolding of `build_effect` on the `stat_boost` kind, exposing the
drawn attribute. -/
theorem build_stat_boost (r : String) (s : RS) :
    build_effect "stat_boost" r s =
      ({ type := "stat_boost",
         value := 0,
         duration := if r = "uncommon" ∨ r = "common" then 300
           else if r = "rare" then 600 else if r = "epic" then 900 else 1200,
         instant := false,
         stats_affected := setStat (choice CORE_ATTRS "strength" s).1
           (if r = "common" then 1 else if r = "uncommon" then 2
            else if r = "rare" then 3 else if r = "epic" then 4 else 5)
           baseStatsAffected }, (choice CORE_ATTRS "strength" s).2) := rfl

/-- Claim C6: for every consumable effect kind and rarity tier, the
`stats_affected` block of `build_effect` carries all 8 fixed attribute keys,
and its non-zero entries match the kind exactly: `heal` sets only `health`,
`mana_restore` only `mana`, `stat_boost` exactly one of the six core
attributes, `speed_boost` none of the attribute keys (its magnitude lives in
`value` and `duration` instead). -/
theorem C6_effect_schema (kind r : String) (s : RS)
    (hk : kind ∈ ["heal", "mana_restore", "stat_boost", "speed_boost"])
    (hr : r ∈ RARITY_ORDER) :
    ((build_effect kind r s).1.stats_affected.map Prod.fst =
      ["health", "mana", "strength", "dexterity", "constitution",
       "intelligence", "wisdom", "charisma"]) ∧
    (kind = "heal" → nonzeroKeys (build_effect kind r s).1 = ["health"]) ∧
    (kind = "mana_restore" → nonzeroKeys (build_effect kind r s).1 = ["mana"]) ∧
    (kind = "stat_boost" →
      ∃ a ∈ CORE_ATTRS, nonzeroKeys (build_effect kind r s).1 = [a]) ∧
    (kind = "speed_boost" → nonzeroKeys (build_effect kind r s).1 = [] ∧
      0 < (build_effect kind r s).1.value ∧ 0 < (build_effect kind r s).1.duration) := by
  have hmem := choice_mem CORE_ATTRS "strength" s (by decide)
  fin_cases hk
  · fin_cases hr <;> exact of_decide_eq_true rfl
  · fin_cases hr <;> exact of_decide_eq_true rfl
  · simp only [CORE_ATTRS, List.mem_cons, List.mem_singleton, List.not_mem_nil,
      or_false] at hmem
    fin_cases hr <;>
      (rw [build_stat_boost]
       simp only [CORE_ATTRS]
       rcases hmem with hx | hx | hx | hx | hx | hx <;> rw [hx] <;>
         exact of_decide_eq_true rfl)
  · fin_cases hr <;> exact of_decide_eq_true rfl

/-- Witness for C6 at concrete inputs: a common healing potion's effect has
`health` as its only non-zero attribute. -/
theorem C6_witness :
    ("heal" ∈ ["heal", "mana_restore", "stat_boost", "speed_boost"]) ∧
    ("common" ∈ RARITY_ORDER) ∧
    nonzeroKeys (build_effect "heal" "common" s925).1 = ["health"] :=
  ⟨by decide, by decide,
   (C6_effect_schema "heal" "common" s925 (by decide) (by decide)).2.1 rfl⟩

theorem upsert_forall (P : String × Nat → Prop) (k : String) (v : Nat) :
    ∀ l : List (String × Nat), (∀ p ∈ l, P p) → P (k, v) →
      ∀ p ∈ upsert k v l, P p := by
  intro l
  induction l with
  | nil =>
    intro _ hkv p hp
    simp only [upsert, List.mem_singleton] at hp
    exact hp ▸ hkv
  | cons q l ih =>
    intro hl hkv p hp
    by_cases hq : q.1 = k
    · simp only [upsert, hq, if_true] at hp
      rcases List.mem_cons.1 hp with h | h
      · exact h ▸ hkv
      · exact hl p (List.mem_cons_of_mem q h)
    · simp only [upsert, hq, if_false] at hp
      rcases List.mem_cons.1 hp with h | h
      · exact h ▸ hl q (List.mem_cons_self q l)
      · exact ih (fun p hp => hl p (List.mem_cons_of_mem q hp)) hkv p h

theorem upsert_len (k : String) (v : Nat) :
    ∀ l : List (String × Nat), (upsert k v l).length ≤ l.length + 1 := by
  intro l
  induction l with
  | nil => simp [upsert]
  | cons q l ih =>
    by_cases hq : q.1 = k
    · simp [upsert, hq]
    · simp only [upsert, hq, if_false, List.length_cons]
      omega

theorem craftLoop_forall (r : String) (liquid : Bool) :
    ∀ (k : Nat) (acc : List (String × Nat)) (s : RS),
      (∀ p ∈ acc, p.1 ∈ CRAFT_POOL.map to_id ∧ p.2 = 1 + RARITY_ORDER.indexOf r / 2) →
      ∀ p ∈ (craftLoop r liquid k acc s).1,
        p.1 ∈ CRAFT_POOL.map to_id ∧ p.2 = 1 + RARITY_ORDER.indexOf r / 2 := by
  intro k
  induction k with
  | zero => intro acc s hacc p hp; exact hacc p hp
  | succ k ih =>
    intro acc s hacc p hp
    simp only [craftLoop] at hp
    by_cases hc : liquid = true ∧ (choice CRAFT_POOL "iron_ingot" s).1 ≠ "pure_water"
    · rw [if_pos hc] at hp
      by_cases hq : (rand (choice CRAFT_POOL "iron_ingot" s).2).1 < 33/100
      · rw [if_pos hq] at hp
        refine ih _ _ ?_ p hp
        exact upsert_forall _ _ _ acc hacc
          ⟨List.mem_map_of_mem to_id (show "pure_water" ∈ CRAFT_POOL by decide), rfl⟩
      · rw [if_neg hq] at hp
        refine ih _ _ ?_ p hp
        exact upsert_forall _ _ _ acc hacc
          ⟨List.mem_map_of_mem to_id (choice_mem CRAFT_POOL "iron_ingot" s (by decide)), rfl⟩
    · rw [if_neg hc] at hp
      refine ih _ _ ?_ p hp
      exact upsert_forall _ _ _ acc hacc
        ⟨List.mem_map_of_mem to_id (choice_mem CRAFT_POOL "iron_ingot" s (by decide)), rfl⟩

theorem craftLoop_len (r : String) (liquid : Bool) :
    ∀ (k : Nat) (acc : List (String × Nat)) (s : RS),
      (craftLoop r liquid k acc s).1.length ≤ acc.length + k := by
  intro k
  induction k with
  | zero => intro acc s; simp [craftLoop]
  | succ k ih =>
    intro acc s
    have haux : ∀ (key : String) (qty : Nat) (s' : RS),
        (craftLoop r liquid k (upsert key qty acc) s').1.length ≤ acc.length + (k + 1) := by
      intro key qty s'
      refine le_trans (ih _ _) ?_
      have h1 := upsert_len key qty acc
      omega
    simp only [craftLoop]
    exact haux _ _ _

/-- Claim C7: for every rarity tier and bounds `min_n ≤ max_n`, `craft_mats`
samples a count of material references lying between `min_n` and `max_n`
(the first `randint` draw), returns a mapping with at most that many entries
(duplicate picks collapse into the dict), every key of which is the id of a
material from the fixed pool, and every per-material quantity equals
`1 + tier-rank / 2`. -/
theorem C7_craft_mats (r : String) (min_n max_n : Nat) (liquid : Bool) (s : RS)
    (_hr : r ∈ RARITY_ORDER) (hmn : min_n ≤ max_n) :
    min_n ≤ (randint min_n max_n s).1 ∧ (randint min_n max_n s).1 ≤ max_n ∧
    (craft_mats r min_n max_n liquid s).1.length ≤ (randint min_n max_n s).1 ∧
    ∀ p ∈ (craft_mats r min_n max_n liquid s).1,
      p.1 ∈ CRAFT_POOL.map to_id ∧ p.2 = 1 + RARITY_ORDER.indexOf r / 2 := by
  obtain ⟨h1, h2⟩ := randint_bounds min_n max_n s hmn
  refine ⟨h1, h2, ?_, ?_⟩
  · have := craftLoop_len r liquid (randint min_n max_n s).1 []
      (randint min_n max_n s).2
    simpa [craft_mats] using this
  · intro p hp
    exact craftLoop_forall r liquid _ [] _ (by simp) p hp

/-- Witness for C7 at concrete inputs: the liquid-mode sampling of a common
consumable recipe with bounds 2..3 and the zero stream. -/
theorem C7_witness :
    ("common" ∈ RARITY_ORDER) ∧ 2 ≤ 3 ∧
    (2 ≤ (randint 2 3 s925).1 ∧ (randint 2 3 s925).1 ≤ 3 ∧
     (craft_mats "common" 2 3 true s925).1.length ≤ (randint 2 3 s925).1 ∧
     ∀ p ∈ (craft_mats "common" 2 3 true s925).1,
       p.1 ∈ CRAFT_POOL.map to_id ∧ p.2 = 1 + RARITY_ORDER.indexOf "common" / 2) :=
  ⟨by decide, by decide, C7_craft_mats "common" 2 3 true s925 (by decide) (by decide)⟩

theorem pyTrunc_mono {x y : ℚ} (h : x ≤ y) : pyTrunc x ≤ pyTrunc y := by
  unfold pyTrunc
  split_ifs with h1 h2 h2
  · exact Int.floor_mono h
  · exact absurd (le_trans h1 h) h2
  · have hx : (0:ℚ) ≤ -x := by linarith [lt_of_not_le h1]
    have h3 : (0:ℤ) ≤ ⌊-x⌋ := Int.le_floor.2 (by exact_mod_cast hx)
    have h4 : (0:ℤ) ≤ ⌊y⌋ := Int.le_floor.2 (by exact_mod_cast h2)
    omega
  · have h3 : ⌊-y⌋ ≤ ⌊-x⌋ := Int.floor_mono (by linarith)
    omega

theorem level_band (r : String) (hr : r ∈ RARITY_ORDER) (s : RS) :
    bandLo r ≤ (level_for_rarity r s).1 ∧ (level_for_rarity r s).1 ≤ bandHi r := by
  fin_cases hr <;>
    (simp only [level_for_rarity, bandLo, bandHi]
     norm_num
     exact randint_bounds _ _ _ (by decide))

theorem goldExpect_mono (r1 r2 : String) (min_v max_v : Nat) (hmn : min_v ≤ max_v)
    (hidx : RARITY_ORDER.indexOf r1 ≤ RARITY_ORDER.indexOf r2) :
    goldExpect r1 min_v max_v ≤ goldExpect r2 min_v max_v := by
  unfold goldExpect
  apply (div_le_div_right (by positivity)).2
  refine Finset.sum_le_sum ?_
  intro k _
  have hb : goldBase r1 min_v max_v ≤ goldBase r2 min_v max_v := by
    unfold goldBase
    have h1 : (0:ℚ) ≤ (max_v : ℚ) - (min_v : ℚ) := by
      rw [sub_nonneg]
      exact_mod_cast hmn
    have h2 : ((RARITY_ORDER.indexOf r1 : ℚ)) / ((RARITY_ORDER.length : ℚ) - 1) ≤
        ((RARITY_ORDER.indexOf r2 : ℚ)) / ((RARITY_ORDER.length : ℚ) - 1) := by
      apply (div_le_div_right (by norm_num [RARITY_ORDER])).2
      exact_mod_cast hidx
    exact add_le_add_left (mul_le_mul_of_nonneg_left h2 h1) _
  exact_mod_cast pyTrunc_mono (add_le_add_right hb (k:ℚ))

/-- Claim C9: `level_for_rarity`, the expectation of `gold_value` over its
jitter draw, and `stat_bonus` are all non-decreasing in rarity rank across
the five ordered tiers (the level bands are in fact disjoint, so every
lower-tier level is below every higher-tier level; the jitter of
`gold_value` may overlap at tier boundaries, but the expectation is
monotone). -/
theorem C9_rarity_monotone (i j : Nat) (hi : i < 5) (hj : j < 5) (hij : i < j)
    (min_v max_v : Nat) (hmn : min_v ≤ max_v) :
    (∀ s t : RS, (level_for_rarity (RARITY_ORDER.getD i "") s).1 ≤
      (level_for_rarity (RARITY_ORDER.getD j "") t).1) ∧
    goldExpect (RARITY_ORDER.getD i "") min_v max_v ≤
      goldExpect (RARITY_ORDER.getD j "") min_v max_v ∧
    stat_bonus (RARITY_ORDER.getD i "") ≤ stat_bonus (RARITY_ORDER.getD j "") := by
  have hmi : RARITY_ORDER.getD i "" ∈ RARITY_ORDER := by
    interval_cases i <;> decide
  have hmj : RARITY_ORDER.getD j "" ∈ RARITY_ORDER := by
    interval_cases j <;> decide
  refine ⟨?_, ?_, ?_⟩
  · intro s t
    have h1 := (level_band _ hmi s).2
    have h2 := (level_band _ hmj t).1
    have h3 : bandHi (RARITY_ORDER.getD i "") ≤ bandLo (RARITY_ORDER.getD j "") := by
      interval_cases i <;> interval_cases j <;> decide
    omega
  · refine goldExpect_mono _ _ min_v max_v hmn ?_
    interval_cases i <;> interval_cases j <;> decide
  · interval_cases i <;> interval_cases j <;> with_unfolding_all decide

/-- Witness for C9 at concrete inputs: common vs legendary over the weapon
gold band 100..900. -/
theorem C9_witness :
    (0:Nat) < 5 ∧ (4:Nat) < 5 ∧ (0:Nat) < 4 ∧ (100:Nat) ≤ 900 ∧
    ((∀ s t : RS, (level_for_rarity (RARITY_ORDER.getD 0 "") s).1 ≤
      (level_for_rarity (RARITY_ORDER.getD 4 "") t).1) ∧
     goldExpect (RARITY_ORDER.getD 0 "") 100 900 ≤
       goldExpect (RARITY_ORDER.getD 4 "") 100 900 ∧
     stat_bonus (RARITY_ORDER.getD 0 "") ≤ stat_bonus (RARITY_ORDER.getD 4 "")) :=
  ⟨by decide, by decide, by decide, by decide,
   C9_rarity_monotone 0 4 (by decide) (by decide) (by decide) 100 900 (by decide)⟩

end Gen
